import Mathlib

/-!
Verification development for the feedback-analytics aggregation engine of
`reflectify-backend` (`src/services/analytics/analytics.service.ts`).

The engine is embedded shallowly:

* JavaScript numbers are modelled exactly (`JsNum`): a rational for every
  finite double, plus the special values `Infinity`, `-Infinity` and `NaN`.
  Floating-point rounding error is idealised away; all arithmetic the
  engine performs (sums, divisions, `toFixed(2)`) is exact.
* Raw `responseValue` payloads are modelled by `JsValue` (the JSON data
  model extended with the special numbers).
* The stateful Prisma fetches are modelled by passing the fetched record
  collection explicitly; where a claim is about the shape of the fetch
  filter itself, the fetch is modelled as a `List.filter` over a database
  of snapshot rows.
* The imperative `Map`-accumulation loops (`forEach` + `map.set/push`)
  are modelled by `jsGroupBy`: insertion-ordered grouping (first-seen key
  order), followed by a per-group reduction — observably identical to the
  source loops.
* `Array.prototype.sort` (guaranteed stable, ES2019) is modelled by
  `List.insertionSort`, which is stable and places `x` before `y` exactly
  when the JS comparator does not require the opposite order.
* `String.prototype.localeCompare` is idealised as code-point
  lexicographic comparison (the `LinearOrder String` order).
-/

namespace Reflectify

/-- Idealised JavaScript number: an exact rational for finite doubles plus
the IEEE special values. -/
inductive JsNum where
  | finite (q : ℚ)
  | inf
  | negInf
  | nan
  deriving DecidableEq

/-- `isNaN x` of JavaScript. -/
def JsNum.isNaN : JsNum → Bool
  | .nan => true
  | _ => false

/-- `Number.isFinite` — true exactly for the finite values. -/
def JsNum.isFinite : JsNum → Bool
  | .finite _ => true
  | _ => false

/-- JavaScript `<` on numbers (false whenever either side is NaN). -/
def JsNum.ltb : JsNum → JsNum → Bool
  | .nan, _ => false
  | _, .nan => false
  | .negInf, .negInf => false
  | .negInf, _ => true
  | _, .negInf => false
  | .inf, _ => false
  | .finite _, .inf => true
  | .finite a, .finite b => decide (a < b)

/-- JavaScript `<=` on numbers (false whenever either side is NaN). -/
def JsNum.leb : JsNum → JsNum → Bool
  | .nan, _ => false
  | _, .nan => false
  | .negInf, _ => true
  | _, .negInf => false
  | _, .inf => true
  | .inf, _ => false
  | .finite a, .finite b => decide (a ≤ b)

/-- JavaScript `+` on numbers. -/
def JsNum.add : JsNum → JsNum → JsNum
  | .nan, _ => .nan
  | _, .nan => .nan
  | .inf, .negInf => .nan
  | .negInf, .inf => .nan
  | .inf, _ => .inf
  | _, .inf => .inf
  | .negInf, _ => .negInf
  | _, .negInf => .negInf
  | .finite a, .finite b => .finite (a + b)

/-- `scores.reduce((a, b) => a + b, 0)`. -/
def jsSum (l : List JsNum) : JsNum := l.foldl JsNum.add (.finite 0)

/-- JavaScript division of a number by an array length. -/
def JsNum.divNat (x : JsNum) (n : ℕ) : JsNum :=
  match n with
  | 0 =>
    match x with
    | .finite q => if 0 < q then .inf else if q < 0 then .negInf else .nan
    | .inf => .inf
    | .negInf => .negInf
    | .nan => .nan
  | m + 1 =>
    match x with
    | .finite q => .finite (q / (m + 1 : ℕ))
    | .inf => .inf
    | .negInf => .negInf
    | .nan => .nan

/-- `Number(x.toFixed(2))`: round to two decimal places (ties pick the
larger candidate, per the `toFixed` specification); the special values are
round-tripped unchanged through their string forms. -/
def JsNum.round2 : JsNum → JsNum
  | .finite q => .finite (((⌊q * 100 + 1 / 2⌋ : ℤ) : ℚ) / 100)
  | x => x

/-- `Number((scores.reduce((a, b) => a + b, 0) / scores.length).toFixed(2))`. -/
def jsMean (l : List JsNum) : JsNum := ((jsSum l).divNat l.length).round2

/-- Order-embedding of the non-NaN JavaScript numbers used to model the
numeric sort comparators (`(a, b) => b.x - a.x`). NaN never reaches a sort
key in this development (the score parser never returns NaN), so its image
is irrelevant; it is sent to `⊥`. -/
def JsNum.toOrd : JsNum → WithBot (WithTop ℚ)
  | .finite q => ((q : WithTop ℚ) : WithBot (WithTop ℚ))
  | .inf => ((⊤ : WithTop ℚ) : WithBot (WithTop ℚ))
  | .negInf => ⊥
  | .nan => ⊥

/-- A JavaScript value as delivered in a `responseValue` column: the JSON
data model, with numbers generalised to `JsNum`. -/
inductive JsValue where
  | num (n : JsNum)
  | str (s : String)
  | bool (b : Bool)
  | null
  | obj (fields : List (String × JsValue))
  | arr (elems : List JsValue)

/-- Whitespace accepted by `parseFloat` / `JSON.parse`. -/
def isWsChar (c : Char) : Bool :=
  (c == ' ') || (c == '\t') || (c == '\n') || (c == '\r')

/-- Decimal digits to a natural number. -/
def digitsToNat (l : List Char) : ℕ :=
  l.foldl (fun acc c => acc * 10 + (c.toNat - '0'.toNat)) 0

/-- JavaScript `parseFloat`: skip leading whitespace, optional sign, accept
`Infinity`, else parse the longest decimal-literal prefix (integer part,
optional fraction, optional exponent); `NaN` when no digits are found. -/
def parseFloatJs (s : String) : JsNum :=
  let cs0 := s.data.dropWhile isWsChar
  let signNeg : Bool :=
    match cs0 with
    | '-' :: _ => true
    | _ => false
  let cs :=
    match cs0 with
    | '+' :: rest => rest
    | '-' :: rest => rest
    | _ => cs0
  if "Infinity".data.isPrefixOf cs then
    if signNeg then .negInf else .inf
  else
    let intDigits := cs.takeWhile Char.isDigit
    let cs1 := cs.drop intDigits.length
    let fracDigits :=
      match cs1 with
      | '.' :: rest => rest.takeWhile Char.isDigit
      | _ => []
    let cs2 :=
      match cs1 with
      | '.' :: rest => rest.drop fracDigits.length
      | _ => cs1
    if intDigits.isEmpty && fracDigits.isEmpty then .nan
    else
      let mant : ℚ :=
        (digitsToNat intDigits : ℚ) +
          (digitsToNat fracDigits : ℚ) / ((10 : ℚ) ^ fracDigits.length)
      let expVal : ℤ :=
        match cs2 with
        | e :: rest =>
          if (e == 'e') || (e == 'E') then
            let eNeg : Bool :=
              match rest with
              | '-' :: _ => true
              | _ => false
            let rest2 :=
              match rest with
              | '+' :: r => r
              | '-' :: r => r
              | _ => rest
            let eds := rest2.takeWhile Char.isDigit
            if eds.isEmpty then 0
            else if eNeg then -(digitsToNat eds : ℤ) else (digitsToNat eds : ℤ)
          else 0
        | [] => 0
      let value : ℚ := mant * (10 : ℚ) ^ expVal
      .finite (if signNeg then -value else value)

/-- Skip JSON whitespace. -/
def skipWs (cs : List Char) : List Char := cs.dropWhile isWsChar

/-- Set a field of a JSON object under construction; duplicate keys follow
`JSON.parse` semantics (the last occurrence wins). -/
def objSet (fields : List (String × JsValue)) (k : String) (v : JsValue) :
    List (String × JsValue) :=
  if fields.any (fun p => p.1 == k) then
    fields.map (fun p => if p.1 == k then (k, v) else p)
  else fields ++ [(k, v)]

/-- Body of a JSON string literal (after the opening quote); handles the
single-character escapes. `\uXXXX` escapes are not modelled — an input
using them is treated as a parse failure, which the caller already treats
as "not a score". -/
def parseStrChars : ℕ → List Char → Option (List Char × List Char)
  | 0, _ => none
  | _ + 1, [] => none
  | fuel + 1, c :: rest =>
    if c == '"' then some ([], rest)
    else if c == '\\' then
      match rest with
      | [] => none
      | e :: rest2 =>
        let ec : Option Char :=
          if e == '"' then some '"'
          else if e == '\\' then some '\\'
          else if e == '/' then some '/'
          else if e == 'n' then some '\n'
          else if e == 't' then some '\t'
          else if e == 'r' then some '\r'
          else if e == 'b' then some (Char.ofNat 8)
          else if e == 'f' then some (Char.ofNat 12)
          else none
        match ec with
        | none => none
        | some ch =>
          match parseStrChars fuel rest2 with
          | some (acc, rem) => some (ch :: acc, rem)
          | none => none
    else
      match parseStrChars fuel rest with
      | some (acc, rem) => some (c :: acc, rem)
      | none => none

/-- A JSON number literal (strict JSON grammar: optional minus, no leading
zeros, fraction and exponent each require at least one digit). -/
def parseJsonNumber (cs : List Char) : Option (JsNum × List Char) :=
  let signNeg : Bool :=
    match cs with
    | '-' :: _ => true
    | _ => false
  let cs1 :=
    match cs with
    | '-' :: rest => rest
    | _ => cs
  let intDigits := cs1.takeWhile Char.isDigit
  if intDigits.isEmpty then none
  else if 1 < intDigits.length && intDigits.headI == '0' then none
  else
    let cs2 := cs1.drop intDigits.length
    let fracStep : Option (List Char × List Char) :=
      match cs2 with
      | '.' :: rest =>
        let fds := rest.takeWhile Char.isDigit
        if fds.isEmpty then none else some (fds, rest.drop fds.length)
      | _ => some ([], cs2)
    match fracStep with
    | none => none
    | some (fracDigits, cs3) =>
      let expStep : Option (ℤ × List Char) :=
        match cs3 with
        | e :: rest =>
          if (e == 'e') || (e == 'E') then
            let eNeg : Bool :=
              match rest with
              | '-' :: _ => true
              | _ => false
            let rest2 :=
              match rest with
              | '+' :: r => r
              | '-' :: r => r
              | _ => rest
            let eds := rest2.takeWhile Char.isDigit
            if eds.isEmpty then none
            else
              some (if eNeg then -(digitsToNat eds : ℤ) else (digitsToNat eds : ℤ),
                rest2.drop eds.length)
          else some (0, cs3)
        | [] => some (0, cs3)
      match expStep with
      | none => none
      | some (expVal, cs4) =>
        let mant : ℚ :=
          (digitsToNat intDigits : ℚ) +
            (digitsToNat fracDigits : ℚ) / ((10 : ℚ) ^ fracDigits.length)
        let value : ℚ := mant * (10 : ℚ) ^ expVal
        some (.finite (if signNeg then -value else value), cs4)

mutual

/-- One JSON value (recursive descent, fuelled). -/
def parseJsonValue : ℕ → List Char → Option (JsValue × List Char)
  | 0, _ => none
  | fuel + 1, cs =>
    match skipWs cs with
    | [] => none
    | c :: rest =>
      if c == 'n' then
        match rest with
        | 'u' :: 'l' :: 'l' :: r => some (.null, r)
        | _ => none
      else if c == 't' then
        match rest with
        | 'r' :: 'u' :: 'e' :: r => some (.bool true, r)
        | _ => none
      else if c == 'f' then
        match rest with
        | 'a' :: 'l' :: 's' :: 'e' :: r => some (.bool false, r)
        | _ => none
      else if c == '"' then
        match parseStrChars (fuel + 1) rest with
        | some (chars, rem) => some (.str (String.mk chars), rem)
        | none => none
      else if c == '[' then
        match skipWs rest with
        | ']' :: r => some (.arr [], r)
        | _ =>
          match parseJsonElems fuel rest with
          | some (elems, rem) => some (.arr elems, rem)
          | none => none
      else if c == '{' then
        match skipWs rest with
        | '}' :: r => some (.obj [], r)
        | _ =>
          match parseJsonMembers fuel rest [] with
          | some (fields, rem) => some (.obj fields, rem)
          | none => none
      else
        match parseJsonNumber (c :: rest) with
        | some (n, rem) => some (.num n, rem)
        | none => none

/-- Comma-separated array elements up to `]`. -/
def parseJsonElems : ℕ → List Char → Option (List JsValue × List Char)
  | 0, _ => none
  | fuel + 1, cs =>
    match parseJsonValue fuel cs with
    | none => none
    | some (v, rem) =>
      match skipWs rem with
      | ',' :: r =>
        match parseJsonElems fuel r with
        | some (vs, rem2) => some (v :: vs, rem2)
        | none => none
      | ']' :: r => some ([v], r)
      | _ => none

/-- Comma-separated object members up to `}`. -/
def parseJsonMembers : ℕ → List Char → List (String × JsValue) →
    Option (List (String × JsValue) × List Char)
  | 0, _, _ => none
  | fuel + 1, cs, acc =>
    match skipWs cs with
    | '"' :: rest =>
      match parseStrChars (fuel + 1) rest with
      | none => none
      | some (kchars, rem) =>
        match skipWs rem with
        | ':' :: r =>
          match parseJsonValue fuel r with
          | none => none
          | some (v, rem2) =>
            match skipWs rem2 with
            | ',' :: r2 => parseJsonMembers fuel r2 (objSet acc (String.mk kchars) v)
            | '}' :: r2 => some (objSet acc (String.mk kchars) v, r2)
            | _ => none
        | _ => none
    | _ => none

end

/-- `JSON.parse`: a whole JSON text (a parse failure models the thrown
`SyntaxError`, which the caller catches). -/
def jsonParse (s : String) : Option JsValue :=
  match parseJsonValue (2 * s.length + 2) s.data with
  | some (v, rem) => if (skipWs rem).isEmpty then some v else none
  | none => none

/-- `'score' in obj && typeof obj.score === 'number'` followed by reading
the field. -/
def jsGetScore (fields : List (String × JsValue)) : Option JsNum :=
  match fields.lookup "score" with
  | some (.num n) => some n
  | _ => none

/-- The `score` accumulator of `parseResponseValueToScore` just before the
final type-and-NaN guard. -/
def rawScoreAux (rawResponseValue : JsValue) : Option JsNum :=
  match rawResponseValue with
  | .str s =>
    let parsedFloat := parseFloatJs s
    if !parsedFloat.isNaN then some parsedFloat
    else
      match jsonParse s with
      | some (.obj fields) => jsGetScore fields
      | some (.num n) => some n
      | _ => none
  | .obj fields => jsGetScore fields
  | .num n => some n
  | _ => none

/-- `parseResponseValueToScore` (analytics.service.ts lines 246–282):
string → `parseFloat`, else `JSON.parse` (object-with-numeric-`score` or
plain number); non-null object with numeric `score`; plain number; final
guard `typeof score === 'number' && !isNaN(score) ? score : null`. -/
def parseResponseValueToScore (rawResponseValue : JsValue) : Option JsNum :=
  match rawScoreAux rawResponseValue with
  | some n => if n.isNaN then none else some n
  | none => none

/-- The final guard of the score parser never lets a NaN through. -/
theorem parseScore_isNaN_false {v : JsValue} {n : JsNum}
    (h : parseResponseValueToScore v = some n) : n.isNaN = false := by
  unfold parseResponseValueToScore at h
  cases hr : rawScoreAux v with
  | none => rw [hr] at h; exact absurd h (by simp)
  | some m =>
    rw [hr] at h
    by_cases hm : m.isNaN = true
    · simp [hm] at h
    · simp [hm] at h
      rw [← h]
      exact eq_false_of_ne_true hm

/-- Claim C4 (corrected): `parseResponseValueToScore` is total — for every
input it returns a number or `null` and never throws (the only throwing
call, `JSON.parse`, is wrapped in try/catch, modelled by `Option`) — and
the returned number is never NaN; however it is *not* always finite: an
infinite input (e.g. the number `Infinity` or the string `"Infinity"`)
is returned as an infinite value, because `!isNaN(score)` lets it pass. -/
theorem parseResponseValueToScore_total_never_nan (v : JsValue) :
    parseResponseValueToScore v = none ∨
    ∃ n : JsNum, parseResponseValueToScore v = some n ∧ n.isNaN = false := by
  cases h : parseResponseValueToScore v with
  | none => exact Or.inl rfl
  | some n => exact Or.inr ⟨n, rfl, parseScore_isNaN_false h⟩

/-- Claim C4 counterexample: on the number input `Infinity` (and on the
string `"Infinity"`, which `parseFloat` accepts) the parser returns
`Infinity`, which is not a finite number — refuting "returns either a
finite number or absent". -/
theorem parseResponseValueToScore_infinity_counterexample :
    parseResponseValueToScore (JsValue.num JsNum.inf) = some JsNum.inf ∧
    parseResponseValueToScore (JsValue.str "Infinity") = some JsNum.inf ∧
    JsNum.inf.isFinite = false := by
  refine ⟨rfl, ?_, rfl⟩
  with_unfolding_all decide

/-! ### The feedback-record model and the lecture/lab classifiers -/

/-- The stored `lectureType` enum (from `subject_allocations."lectureType"`). -/
inductive LectureType where
  | LECTURE
  | LAB
  deriving DecidableEq

/-- Display form used when a lecture type is embedded in a composite
string key (template literals in the source). -/
def lectureTypeStr : LectureType → String
  | .LECTURE => "LECTURE"
  | .LAB => "LAB"

/-- A denormalised feedback record ("snapshot"), the union of the columns
selected by the various queries of the service. Nullable columns are
`Option`; deletion flags are carried for the fetch-filter models. -/
structure Snapshot where
  id : String := ""
  academicYearId : String := ""
  academicYearString : String := ""
  departmentId : String := ""
  departmentName : String := ""
  departmentAbbreviation : String := ""
  semesterId : String := ""
  semesterNumber : ℤ := 0
  divisionId : String := ""
  divisionName : String := ""
  subjectId : String := ""
  subjectName : String := ""
  subjectAbbreviation : String := ""
  subjectCode : String := ""
  facultyId : String := ""
  facultyName : String := ""
  facultyAbbreviation : String := ""
  facultyDesignation : Option String := none
  studentId : Option String := none
  studentEnrollmentNumber : String := ""
  formId : String := ""
  formStatus : String := ""
  questionId : String := ""
  questionType : String := ""
  questionCategoryId : Option String := none
  questionCategoryName : Option String := none
  questionBatch : Option String := none
  batch : Option String := none
  lectureType : LectureType := .LECTURE
  responseValue : JsValue := .null
  isDeleted : Bool := false
  formIsDeleted : Bool := false
  formDeleted : Bool := false
  questionIsDeleted : Bool := false
  semesterIsDeleted : Bool := false
  divisionIsDeleted : Bool := false
  subjectIsDeleted : Bool := false
  departmentIsDeleted : Bool := false
  academicYearIsDeleted : Bool := false

instance : Inhabited Snapshot := ⟨{}⟩

/-- `hay.includes(needle)` on strings. -/
def strIncludes (hay needle : String) : Bool := decide (needle.data <:+: hay.data)

/-- `snapshot.questionCategoryName?.toLowerCase().includes('laboratory') ||
snapshot.questionCategoryName?.toLowerCase().includes('lab')` (a null
category short-circuits to undefined, which is falsy). -/
def categoryIndicatesLab (s : Snapshot) : Bool :=
  match s.questionCategoryName with
  | some c => strIncludes c.toLower "laboratory" || strIncludes c.toLower "lab"
  | none => false

/-- `snapshot.questionBatch && snapshot.questionBatch.toLowerCase() !== 'none'`
(null and the empty string are falsy). -/
def batchIndicatesLab (s : Snapshot) : Bool :=
  match s.questionBatch with
  | some b => (b != "") && (b.toLower != "none")
  | none => false

/-- The classifier inlined in the `getCompleteAnalyticsData` grouping key
(lines 1956–1968): it tests only `questionCategoryName`. -/
def groupLectureType (s : Snapshot) : LectureType :=
  if categoryIndicatesLab s then .LAB else .LECTURE

/-- `deriveLectureType` as defined identically inside the three detail
builders (e.g. lines 2635–2648): `questionCategoryName` first, then
`questionBatch`. -/
def deriveLectureType (s : Snapshot) : LectureType :=
  if categoryIndicatesLab s then .LAB
  else if batchIndicatesLab s then .LAB
  else .LECTURE

/-- The classifier used by `aggregateSubjectRatings` (line 2289): the
record's stored `lectureType` field, nothing else. -/
def fieldLectureType (s : Snapshot) : LectureType := s.lectureType

/-- The classifier inlined in `getSubjectWiseLectureLabRating`
(lines 508–519): like `deriveLectureType` but reading the *student*
`batch` column instead of `questionBatch`. -/
def wllBatchIndicatesLab (s : Snapshot) : Bool :=
  match s.batch with
  | some b => (b != "") && (b.toLower != "none")
  | none => false

/-- Classifier of `getSubjectWiseLectureLabRating`. -/
def wllLectureType (s : Snapshot) : LectureType :=
  if categoryIndicatesLab s then .LAB
  else if wllBatchIndicatesLab s then .LAB
  else .LECTURE

/-- Claim C1 (amended): the classification is *not* computed identically at
every use site. What does hold: the category-only grouping classifier of
`getCompleteAnalyticsData` and the detail builders' `deriveLectureType`
agree on every record whose `questionBatch` signal is falsy or the literal
`'none'` (case-insensitive), i.e. whenever `batchIndicatesLab` is false;
`aggregateSubjectRatings` instead reads the stored `lectureType` field,
which is independent of both question-derived signals. -/
theorem lectureType_classifiers_agreement (s : Snapshot)
    (h : batchIndicatesLab s = false) :
    deriveLectureType s = groupLectureType s ∧ fieldLectureType s = s.lectureType := by
  refine ⟨?_, rfl⟩
  unfold deriveLectureType groupLectureType
  by_cases hc : categoryIndicatesLab s
  · rw [if_pos hc, if_pos hc]
  · rw [if_neg hc, if_neg hc, h]
    simp

/-- Witness for the C1 amended theorem at a concrete record. -/
theorem lectureType_classifiers_agreement_witness :
    batchIndicatesLab { questionCategoryName := some "Theory" : Snapshot } = false ∧
    deriveLectureType { questionCategoryName := some "Theory" : Snapshot } =
      groupLectureType { questionCategoryName := some "Theory" : Snapshot } := by
  have h : batchIndicatesLab { questionCategoryName := some "Theory" : Snapshot } = false := by
    with_unfolding_all decide
  exact ⟨h, (lectureType_classifiers_agreement _ h).1⟩

/-- Claim C1 counterexample: a record with a non-lab category name, a real
lab batch (`"B1"`) and stored `lectureType = LECTURE` is classified LAB by
`deriveLectureType` but LECTURE by the `getCompleteAnalyticsData` grouping
and by `aggregateSubjectRatings`' stored-field classifier — the three use
sites do not agree on this record. -/
theorem lectureType_classifiers_counterexample :
    deriveLectureType
        { questionCategoryName := some "Theory", questionBatch := some "B1",
          lectureType := .LECTURE : Snapshot } = .LAB ∧
    groupLectureType
        { questionCategoryName := some "Theory", questionBatch := some "B1",
          lectureType := .LECTURE : Snapshot } = .LECTURE ∧
    fieldLectureType
        { questionCategoryName := some "Theory", questionBatch := some "B1",
          lectureType := .LECTURE : Snapshot } = .LECTURE := by
  refine ⟨?_, ?_, rfl⟩ <;> with_unfolding_all decide

/-! ### Insertion-ordered grouping (the `Map`/`Set` accumulation loops) -/

/-- One step of `new Set()` accumulation / first-seen key collection. -/
def dedupStep {κ : Type} [BEq κ] (acc : List κ) (k : κ) : List κ :=
  if acc.any (fun x => x == k) then acc else acc ++ [k]

/-- The distinct values of a list in first-seen order (`new Set(xs)`). -/
def dedupFirst {κ : Type} [BEq κ] (l : List κ) : List κ := l.foldl dedupStep []

/-- One `map.set`/push step: append `a` to the group of key `k`, creating
the group at the end (insertion order) when absent. -/
def addToGroups {κ α : Type} [BEq κ] (gs : List (κ × List α)) (k : κ) (a : α) :
    List (κ × List α) :=
  if gs.any (fun p => p.1 == k) then
    gs.map (fun p => if p.1 == k then (p.1, p.2 ++ [a]) else p)
  else gs ++ [(k, [a])]

/-- The `snapshots.forEach` accumulation pattern common to all builders:
records failing `keep` are skipped (`if (score === null || score <= 0)
return`), the rest are grouped by `key` in first-seen key order. -/
def jsGroupBy {κ α : Type} [BEq κ] (keep : α → Bool) (key : α → κ)
    (l : List α) : List (κ × List α) :=
  l.foldl (fun gs s => if keep s then addToGroups gs (key s) s else gs) []

theorem mem_dedupStep {κ : Type} [BEq κ] [LawfulBEq κ] {acc : List κ} {k x : κ} :
    x ∈ dedupStep acc k ↔ x ∈ acc ∨ x = k := by
  unfold dedupStep
  by_cases h : acc.any (fun y => y == k) = true
  · rw [if_pos h]
    simp only [List.any_eq_true, beq_iff_eq] at h
    obtain ⟨y, hy, rfl⟩ := h
    constructor
    · exact fun hx => Or.inl hx
    · rintro (hx | rfl)
      · exact hx
      · exact hy
  · rw [if_neg h]
    simp

theorem mem_foldl_dedupStep {κ : Type} [BEq κ] [LawfulBEq κ] (l : List κ) :
    ∀ (acc : List κ) (x : κ), x ∈ l.foldl dedupStep acc ↔ x ∈ acc ∨ x ∈ l := by
  induction l with
  | nil => intro acc x; simp
  | cons k t ih =>
    intro acc x
    rw [List.foldl_cons, ih, mem_dedupStep]
    simp only [List.mem_cons]
    tauto

theorem mem_dedupFirst {κ : Type} [BEq κ] [LawfulBEq κ] {l : List κ} {x : κ} :
    x ∈ dedupFirst l ↔ x ∈ l := by
  rw [dedupFirst, mem_foldl_dedupStep]
  simp

theorem nodup_foldl_dedupStep {κ : Type} [BEq κ] [LawfulBEq κ] (l : List κ) :
    ∀ acc : List κ, acc.Nodup → (l.foldl dedupStep acc).Nodup := by
  induction l with
  | nil => intro acc h; exact h
  | cons k t ih =>
    intro acc h
    rw [List.foldl_cons]
    apply ih
    unfold dedupStep
    by_cases hk : acc.any (fun y => y == k) = true
    · rw [if_pos hk]; exact h
    · rw [if_neg hk]
      simp only [List.any_eq_true, beq_iff_eq, not_exists, not_and] at hk
      simp only [List.nodup_append, List.nodup_cons, List.nodup_nil]
      exact ⟨h, by simp, by simpa [List.disjoint_singleton] using fun hm => (hk k hm) rfl⟩

theorem nodup_dedupFirst {κ : Type} [BEq κ] [LawfulBEq κ] (l : List κ) :
    (dedupFirst l).Nodup :=
  nodup_foldl_dedupStep l [] List.nodup_nil

theorem dedupFirst_append_singleton {κ : Type} [BEq κ] (l : List κ) (k : κ) :
    dedupFirst (l ++ [k]) = dedupStep (dedupFirst l) k := by
  rw [dedupFirst, List.foldl_append]
  rfl

/-- `dedupFirst` counts exactly the distinct elements. -/
theorem dedupFirst_length_eq_card {κ : Type} [BEq κ] [LawfulBEq κ] [DecidableEq κ]
    (l : List κ) : (dedupFirst l).length = l.toFinset.card := by
  rw [List.card_toFinset]
  have h1 : List.Perm (dedupFirst l) l.dedup := by
    rw [List.perm_ext_iff_of_nodup (nodup_dedupFirst l) l.nodup_dedup]
    intro x
    rw [mem_dedupFirst, List.mem_dedup]
  exact h1.length_eq

/-- The central grouping lemma: the imperative grouping loop equals, for
each first-seen key, the sub-list of kept records with that key. -/
theorem jsGroupBy_eq {κ α : Type} [BEq κ] [LawfulBEq κ] (keep : α → Bool)
    (key : α → κ) (l : List α) :
    jsGroupBy keep key l =
      (dedupFirst ((l.filter keep).map key)).map
        (fun k => (k, l.filter (fun s => keep s && (key s == k)))) := by
  induction l using List.reverseRecOn with
  | nil => rfl
  | append_singleton l a ih =>
    by_cases ha : keep a = true
    · have hgb : jsGroupBy keep key (l ++ [a]) =
          addToGroups (jsGroupBy keep key l) (key a) a := by
        rw [jsGroupBy, List.foldl_append]
        simp [ha, jsGroupBy]
      have hkeys : (((l ++ [a]).filter keep).map key) =
          ((l.filter keep).map key) ++ [key a] := by
        simp [List.filter_append, ha]
      have hflt : ∀ k : κ, (l ++ [a]).filter (fun s => keep s && (key s == k)) =
          (l.filter (fun s => keep s && (key s == k))) ++
            (if key a == k then [a] else []) := by
        intro k
        rw [List.filter_append]
        by_cases hk : key a == k
        · simp [hk, ha]
        · simp only [beq_eq_false_iff_ne, ne_eq] at hk
          simp [ha, hk]
      rw [hgb, ih, hkeys, dedupFirst_append_singleton]
      by_cases hmem : (key a) ∈ dedupFirst ((l.filter keep).map key)
      · have hstep : dedupStep (dedupFirst ((l.filter keep).map key)) (key a) =
            dedupFirst ((l.filter keep).map key) := by
          unfold dedupStep
          rw [if_pos]
          simp only [List.any_eq_true, beq_iff_eq]
          exact ⟨key a, hmem, rfl⟩
        have htest : ((dedupFirst ((l.filter keep).map key)).map
            (fun k => (k, l.filter (fun s => keep s && (key s == k))))).any
              (fun p => p.1 == key a) = true := by
          rw [List.any_eq_true]
          exact ⟨_, List.mem_map.mpr ⟨key a, hmem, rfl⟩, by simp⟩
        rw [hstep, addToGroups, if_pos htest, List.map_map]
        apply List.map_congr_left
        intro k _
        by_cases hk : k = key a
        · subst hk
          simp [hflt]
        · have h1 : (k == key a) = false := by
            simp only [beq_eq_false_iff_ne, ne_eq]; exact hk
          have h2 : (key a == k) = false := by
            simp only [beq_eq_false_iff_ne, ne_eq]; exact fun h => hk h.symm
          simp [Function.comp, h1, hflt, h2]
      · have hstep : dedupStep (dedupFirst ((l.filter keep).map key)) (key a) =
            dedupFirst ((l.filter keep).map key) ++ [key a] := by
          unfold dedupStep
          rw [if_neg]
          simp only [List.any_eq_true, beq_iff_eq, not_exists, not_and]
          exact fun x hx hxa => hmem (hxa ▸ hx)
        have htest : ((dedupFirst ((l.filter keep).map key)).map
            (fun k => (k, l.filter (fun s => keep s && (key s == k))))).any
              (fun p => p.1 == key a) = false := by
          rw [List.any_eq_false]
          intro p hp
          obtain ⟨k, hk, rfl⟩ := List.mem_map.mp hp
          simp only [beq_iff_eq]
          exact fun h => hmem (h ▸ hk)
        have hnil : l.filter (fun s => keep s && (key s == key a)) = [] := by
          rw [List.filter_eq_nil_iff]
          intro s hs hcond
          simp only [Bool.and_eq_true, beq_iff_eq] at hcond
          exact hmem (mem_dedupFirst.mpr
            (List.mem_map.mpr ⟨s, List.mem_filter.mpr ⟨hs, hcond.1⟩, hcond.2⟩))
        rw [hstep, addToGroups, if_neg (by rw [htest]; simp), List.map_append]
        congr 1
        · apply List.map_congr_left
          intro k hk
          have hka : (key a == k) = false := by
            simp only [beq_eq_false_iff_ne, ne_eq]
            exact fun h => hmem (h ▸ hk)
          simp [hflt, hka]
        · simp [hflt, hnil]
    · have ha' : keep a = false := eq_false_of_ne_true ha
      have hgb : jsGroupBy keep key (l ++ [a]) = jsGroupBy keep key l := by
        rw [jsGroupBy, List.foldl_append]
        simp [ha', jsGroupBy]
      have hkeys : (((l ++ [a]).filter keep).map key) = ((l.filter keep).map key) := by
        simp [List.filter_append, ha']
      rw [hgb, ih, hkeys]
      apply List.map_congr_left
      intro k _
      simp [List.filter_append, ha']

/-- Keys of the grouping are the kept keys in first-seen order. -/
theorem jsGroupBy_keys {κ α : Type} [BEq κ] [LawfulBEq κ] (keep : α → Bool)
    (key : α → κ) (l : List α) :
    (jsGroupBy keep key l).map Prod.fst = dedupFirst ((l.filter keep).map key) := by
  rw [jsGroupBy_eq, List.map_map]
  have hid : ∀ k ∈ dedupFirst ((l.filter keep).map key),
      (Prod.fst ∘ fun k => (k, l.filter (fun s => keep s && (key s == k)))) k = id k :=
    fun k _ => rfl
  rw [List.map_congr_left hid, List.map_id]

/-- A first-seen key always owns a non-empty group. -/
theorem filter_key_ne_nil {κ α : Type} [BEq κ] [LawfulBEq κ] (keep : α → Bool)
    (key : α → κ) {l : List α} {k : κ}
    (hk : k ∈ dedupFirst ((l.filter keep).map key)) :
    l.filter (fun s => keep s && (key s == k)) ≠ [] := by
  intro hnil
  rw [mem_dedupFirst] at hk
  obtain ⟨s, hs, rfl⟩ := List.mem_map.mp hk
  have hs' := List.mem_filter.mp hs
  have hmem : s ∈ l.filter (fun s' => keep s' && (key s' == key s)) :=
    List.mem_filter.mpr ⟨hs'.1, by simp [hs'.2]⟩
  rw [hnil] at hmem
  exact absurd hmem (List.not_mem_nil s)

/-- Appending one record to its (present or fresh) group raises the total
of the group sizes by exactly one, provided keys are unrepeated. -/
theorem sumLens_addToGroups {κ α : Type} [BEq κ] [LawfulBEq κ]
    (gs : List (κ × List α)) (k : κ) (a : α) (hnd : (gs.map Prod.fst).Nodup) :
    ((addToGroups gs k a).map (fun p => p.2.length)).sum =
      ((gs.map (fun p => p.2.length)).sum) + 1 := by
  unfold addToGroups
  by_cases h : gs.any (fun p => p.1 == k) = true
  · rw [if_pos h]
    induction gs with
    | nil => simp at h
    | cons p t ih =>
      simp only [List.map_cons, List.nodup_cons] at hnd
      by_cases hp : (p.1 == k) = true
      · simp only [List.map_cons, List.sum_cons]
        rw [if_pos hp]
        have ht : t.map (fun q => if q.1 == k then (q.1, q.2 ++ [a]) else q) =
            t.map id := by
          apply List.map_congr_left
          intro q hq
          have hqf : (q.1 == k) = false := by
            simp only [beq_iff_eq] at hp
            simp only [beq_eq_false_iff_ne, ne_eq]
            intro hqk
            exact hnd.1 (by rw [hp, ← hqk]; exact List.mem_map.mpr ⟨q, hq, rfl⟩)
          simp [hqf]
        rw [ht, List.map_id]
        simp only [List.length_append, List.length_cons, List.length_nil]
        omega
      · have hp' : (p.1 == k) = false := eq_false_of_ne_true hp
        simp only [List.any_cons, hp', Bool.false_or] at h
        simp only [List.map_cons, List.sum_cons]
        rw [if_neg (by simp [hp'])]
        rw [ih hnd.2 h]
        omega
  · rw [if_neg h]
    simp

/-- Partition property: the group sizes of `jsGroupBy` sum to the number
of kept records. -/
theorem jsGroupBy_sumLens {κ α : Type} [BEq κ] [LawfulBEq κ] (keep : α → Bool)
    (key : α → κ) (l : List α) :
    ((jsGroupBy keep key l).map (fun p => p.2.length)).sum = (l.filter keep).length := by
  induction l using List.reverseRecOn with
  | nil => rfl
  | append_singleton l a ih =>
    by_cases ha : keep a = true
    · have hgb : jsGroupBy keep key (l ++ [a]) =
          addToGroups (jsGroupBy keep key l) (key a) a := by
        rw [jsGroupBy, List.foldl_append]
        simp [ha, jsGroupBy]
      have hnd : ((jsGroupBy keep key l).map Prod.fst).Nodup := by
        rw [jsGroupBy_keys]
        exact nodup_dedupFirst _
      rw [hgb, sumLens_addToGroups _ _ _ hnd, ih]
      simp [List.filter_append, ha]
    · have ha' : keep a = false := eq_false_of_ne_true ha
      have hgb : jsGroupBy keep key (l ++ [a]) = jsGroupBy keep key l := by
        rw [jsGroupBy, List.foldl_append]
        simp [ha', jsGroupBy]
      rw [hgb, ih]
      simp [List.filter_append, ha']

/-! ### Score extraction predicates of the builders -/

/-- Score kept by the `aggregate*` builders and breakdown loops:
`if (score === null || score <= 0) return;` — the record survives with its
parsed score exactly when parsing succeeded and `score <= 0` is false. -/
def aggScoreOf (s : Snapshot) : Option JsNum :=
  match parseResponseValueToScore s.responseValue with
  | some n => if n.leb (.finite 0) then none else some n
  | none => none

/-- The guard itself, as the grouping `keep` predicate. -/
def aggKept (s : Snapshot) : Bool := (aggScoreOf s).isSome

/-- Score kept by the filter-style sites:
`.filter((score): score is number => score !== null && score > 0)`. -/
def posScoreOf (s : Snapshot) : Option JsNum :=
  match parseResponseValueToScore s.responseValue with
  | some n => if (JsNum.finite 0).ltb n then some n else none
  | none => none

/-- The two keep conditions coincide, because the parser never returns NaN
(for non-NaN numbers, `!(n <= 0)` and `0 < n` agree). -/
theorem aggScoreOf_eq_posScoreOf (s : Snapshot) : aggScoreOf s = posScoreOf s := by
  unfold aggScoreOf posScoreOf
  cases h : parseResponseValueToScore s.responseValue with
  | none => rfl
  | some n =>
    have hn := parseScore_isNaN_false h
    cases n with
    | finite q =>
      simp only [JsNum.leb, JsNum.ltb, decide_eq_true_eq]
      by_cases hq : q ≤ 0
      · rw [if_pos (by simpa using hq), if_neg (by simpa using not_lt.mpr hq)]
      · rw [if_neg (by simpa using hq), if_pos (by simpa using lt_of_not_le hq)]
    | inf => rfl
    | negInf => rfl
    | nan => simp [JsNum.isNaN] at hn

/-! ### Sort comparators -/

/-- `(a, b) => b.key - a.key` under a stable sort: `a` may stay before `b`
exactly when `key b ≤ key a` in the NaN-free order. -/
def ratingDescOrder {β : Type} (f : β → JsNum) (a b : β) : Prop :=
  JsNum.toOrd (f b) ≤ JsNum.toOrd (f a)

instance {β : Type} (f : β → JsNum) : DecidableRel (ratingDescOrder f) :=
  fun a b => inferInstanceAs (Decidable (_ ≤ _))

instance {β : Type} (f : β → JsNum) : IsTotal β (ratingDescOrder f) :=
  ⟨fun _ _ => le_total _ _⟩

instance {β : Type} (f : β → JsNum) : IsTrans β (ratingDescOrder f) :=
  ⟨fun _ _ _ h1 h2 => le_trans h2 h1⟩

/-- `(a, b) => a.key.localeCompare(b.key)` under a stable sort. -/
def strAscOrder {β : Type} (f : β → String) (a b : β) : Prop := f a ≤ f b

instance {β : Type} (f : β → String) : DecidableRel (strAscOrder f) :=
  fun a b => inferInstanceAs (Decidable (_ ≤ _))

instance {β : Type} (f : β → String) : IsTotal β (strAscOrder f) :=
  ⟨fun _ _ => le_total _ _⟩

instance {β : Type} (f : β → String) : IsTrans β (strAscOrder f) :=
  ⟨fun _ _ _ h1 h2 => le_trans h1 h2⟩

/-! ### Rollup builders (`getOptimizedAnalyticsData` helpers) -/

/-- `snapshot.facultyDesignation || 'N/A'` (null and empty string falsy). -/
def designationOrNA (d : Option String) : String :=
  match d with
  | some s => if s == "" then "N/A" else s
  | none => "N/A"

/-- Output row of `calculateOverallStats`. -/
structure OverallStats where
  totalResponses : ℕ
  averageRating : JsNum
  uniqueSubjects : ℕ
  uniqueFaculties : ℕ
  uniqueStudents : ℕ
  uniqueDivisions : ℕ
  deriving DecidableEq

/-- `calculateOverallStats` (lines 2237–2257): scores are the parsed values
that are non-null and `> 0`; the distinct counts are `new Set(...)` over
*all* snapshots (students additionally `.filter(Boolean)`). -/
def calculateOverallStats (snapshots : List Snapshot) : OverallStats :=
  let scores := (snapshots.map (fun s => parseResponseValueToScore s.responseValue)).filterMap
    (fun o =>
      match o with
      | some n => if (JsNum.finite 0).ltb n then some n else none
      | none => none)
  { totalResponses := scores.length,
    averageRating := if 0 < scores.length then jsMean scores else .finite 0,
    uniqueSubjects := (dedupFirst (snapshots.map (fun s => s.subjectId))).length,
    uniqueFaculties := (dedupFirst (snapshots.map (fun s => s.facultyId))).length,
    uniqueStudents := (dedupFirst ((snapshots.map (fun s => s.studentId)).filterMap
      (fun o =>
        match o with
        | some sid => if sid == "" then none else some sid
        | none => none))).length,
    uniqueDivisions := (dedupFirst (snapshots.map (fun s => s.divisionId))).length }

/-- Output row of `aggregateSubjectRatings`. -/
structure SubjectRatingAggregated where
  subjectId : String
  subjectName : String
  subjectAbbreviation : String
  subjectCode : String
  lectureRating : Option JsNum
  labRating : Option JsNum
  overallRating : JsNum
  lectureResponses : ℕ
  labResponses : ℕ
  totalResponses : ℕ
  facultyCount : ℕ
  divisionCount : ℕ
  deriving DecidableEq

/-- `aggregateSubjectRatings` (lines 2259–2323): group by `subjectId`
(records with absent or `<= 0` score skipped), split each group's scores
by the *stored* `lectureType` field, average with rounding at the output
boundary (`null` for an empty lecture/lab sub-list, `0` for an empty
overall list), and sort descending by `overallRating`. -/
def aggregateSubjectRatings (snapshots : List Snapshot) : List SubjectRatingAggregated :=
  let groups := jsGroupBy aggKept (fun s => s.subjectId) snapshots
  let rows := groups.map (fun g =>
    let first := g.2.headI
    let lectureScores := g.2.filterMap
      (fun s => if s.lectureType == LectureType.LECTURE then aggScoreOf s else none)
    let labScores := g.2.filterMap
      (fun s => if s.lectureType == LectureType.LECTURE then none else aggScoreOf s)
    let allScores := lectureScores ++ labScores
    { subjectId := first.subjectId,
      subjectName := first.subjectName,
      subjectAbbreviation := first.subjectAbbreviation,
      subjectCode := first.subjectCode,
      lectureRating := if 0 < lectureScores.length then some (jsMean lectureScores) else none,
      labRating := if 0 < labScores.length then some (jsMean labScores) else none,
      overallRating := if 0 < allScores.length then jsMean allScores else .finite 0,
      lectureResponses := lectureScores.length,
      labResponses := labScores.length,
      totalResponses := allScores.length,
      facultyCount := (dedupFirst (g.2.map (fun s => s.facultyId))).length,
      divisionCount := (dedupFirst (g.2.map (fun s => s.divisionId))).length
      : SubjectRatingAggregated })
  rows.insertionSort (ratingDescOrder (fun r => r.overallRating))

/-- Output row of `aggregateFacultyPerformance`. -/
structure FacultyPerformanceAggregated where
  facultyId : String
  facultyName : String
  facultyAbbreviation : String
  designation : String
  averageRating : JsNum
  totalResponses : ℕ
  rank : ℕ
  subjectCount : ℕ
  divisionCount : ℕ
  deriving DecidableEq

/-- `facultyList.forEach((faculty, index) => faculty.rank = index + 1)`. -/
def assignRanks : ℕ → List FacultyPerformanceAggregated → List FacultyPerformanceAggregated
  | _, [] => []
  | i, r :: rs => { r with rank := i } :: assignRanks (i + 1) rs

/-- `aggregateFacultyPerformance` (lines 2325–2380): group by `facultyId`
(absent/`<= 0` scores skipped), average with rounding, sort descending by
the rounded mean, then assign `rank = index + 1`. -/
def aggregateFacultyPerformance (snapshots : List Snapshot) :
    List FacultyPerformanceAggregated :=
  let groups := jsGroupBy aggKept (fun s => s.facultyId) snapshots
  let facultyList := (groups.map (fun g =>
    let first := g.2.headI
    let scores := g.2.filterMap aggScoreOf
    { facultyId := first.facultyId,
      facultyName := first.facultyName,
      facultyAbbreviation := first.facultyAbbreviation,
      designation := designationOrNA first.facultyDesignation,
      averageRating := if 0 < scores.length then jsMean scores else .finite 0,
      totalResponses := scores.length,
      rank := 0,
      subjectCount := (dedupFirst (g.2.map (fun s => s.subjectId))).length,
      divisionCount := (dedupFirst (g.2.map (fun s => s.divisionId))).length
      : FacultyPerformanceAggregated })).insertionSort
        (ratingDescOrder (fun r => r.averageRating))
  assignRanks 1 facultyList

/-- Output row of `aggregateDivisionPerformance`. -/
structure DivisionPerformanceAggregated where
  divisionId : String
  divisionName : String
  departmentName : String
  semesterNumber : ℤ
  averageRating : JsNum
  totalResponses : ℕ
  facultyCount : ℕ
  subjectCount : ℕ
  deriving DecidableEq

/-- `aggregateDivisionPerformance` (lines 2382–2429): group by
`divisionId`, average with rounding, sort ascending by `divisionName`. -/
def aggregateDivisionPerformance (snapshots : List Snapshot) :
    List DivisionPerformanceAggregated :=
  let groups := jsGroupBy aggKept (fun s => s.divisionId) snapshots
  let rows := groups.map (fun g =>
    let first := g.2.headI
    let scores := g.2.filterMap aggScoreOf
    { divisionId := first.divisionId,
      divisionName := first.divisionName,
      departmentName := first.departmentName,
      semesterNumber := first.semesterNumber,
      averageRating := if 0 < scores.length then jsMean scores else .finite 0,
      totalResponses := scores.length,
      facultyCount := (dedupFirst (g.2.map (fun s => s.facultyId))).length,
      subjectCount := (dedupFirst (g.2.map (fun s => s.subjectId))).length
      : DivisionPerformanceAggregated })
  rows.insertionSort (strAscOrder (fun r => r.divisionName))

/-- Output row of `aggregateAcademicYearTrends`. -/
structure AcademicYearTrendAggregated where
  academicYearId : String
  academicYearString : String
  averageRating : JsNum
  totalResponses : ℕ
  departmentCount : ℕ
  divisionCount : ℕ
  deriving DecidableEq

/-- `aggregateAcademicYearTrends` (lines 2431–2472): group by
`academicYearId`, average with rounding, sort ascending by
`academicYearString`. -/
def aggregateAcademicYearTrends (snapshots : List Snapshot) :
    List AcademicYearTrendAggregated :=
  let groups := jsGroupBy aggKept (fun s => s.academicYearId) snapshots
  let rows := groups.map (fun g =>
    let first := g.2.headI
    let scores := g.2.filterMap aggScoreOf
    { academicYearId := first.academicYearId,
      academicYearString := first.academicYearString,
      averageRating := if 0 < scores.length then jsMean scores else .finite 0,
      totalResponses := scores.length,
      departmentCount := (dedupFirst (g.2.map (fun s => s.departmentId))).length,
      divisionCount := (dedupFirst (g.2.map (fun s => s.divisionId))).length
      : AcademicYearTrendAggregated })
  rows.insertionSort (strAscOrder (fun r => r.academicYearString))

/-! ### Legacy per-semester builders -/

/-- Output row of `getSubjectWiseLectureLabRating`. -/
structure SubjectWiseRatingOutput where
  subject : String
  lectureType : String
  averageRating : JsNum
  responseCount : ℕ
  deriving DecidableEq

/-- The pure core of `getSubjectWiseLectureLabRating` (lines 508–549),
applied to the fetched snapshot collection: group *all* records (no score
filter) by the string key `subjectName|lectureType` (classifier using the
student `batch` column), average the *parseable* scores of each group
(score `<= 0` included), and report `responseCount = snapshots.length` of
the group; sort ascending by subject name. -/
def getSubjectWiseLectureLabRating (snapshots : List Snapshot) :
    List SubjectWiseRatingOutput :=
  let groups := jsGroupBy (fun _ => true)
    (fun s => s.subjectName ++ "|" ++ lectureTypeStr (wllLectureType s)) snapshots
  let subjectRatings := groups.map (fun g =>
    let parts := g.1.splitOn "|"
    let numericResponses := (g.2.map (fun s => parseResponseValueToScore s.responseValue)).filterMap id
    { subject := parts.getD 0 "",
      lectureType := parts.getD 1 "",
      averageRating := if 0 < numericResponses.length then jsMean numericResponses else .finite 0,
      responseCount := g.2.length
      : SubjectWiseRatingOutput })
  subjectRatings.insertionSort (strAscOrder (fun r => r.subject))

/-- Output row of `getSemesterTrendAnalysis`. -/
structure SemesterTrendAnalysisOutput where
  semester : ℤ
  subject : String
  averageRating : JsNum
  responseCount : ℕ
  deriving DecidableEq

/-- The stable-sort order of `getSemesterTrendAnalysis`:
semester ascending, then subject name. -/
def semTrendOrder (a b : SemesterTrendAnalysisOutput) : Prop :=
  a.semester < b.semester ∨ (a.semester = b.semester ∧ a.subject ≤ b.subject)

instance : DecidableRel semTrendOrder := fun a b =>
  inferInstanceAs (Decidable (_ ∨ _))

/-- The pure core of `getSemesterTrendAnalysis` (lines 636–713): group all
records by `semesterNumber|subjectName`, average the parseable scores
(score `<= 0` included), `responseCount = snapshots.length` of the group;
sort by semester then subject. -/
def getSemesterTrendAnalysis (snapshots : List Snapshot) :
    List SemesterTrendAnalysisOutput :=
  let groups := jsGroupBy (fun _ => true)
    (fun s => toString s.semesterNumber ++ "|" ++ s.subjectName) snapshots
  let trends := groups.map (fun g =>
    let parts := g.1.splitOn "|"
    let numericResponses := (g.2.map (fun s => parseResponseValueToScore s.responseValue)).filterMap id
    { semester := ((parts.getD 0 "").toInt?).getD 0,
      subject := parts.getD 1 "",
      averageRating := if 0 < numericResponses.length then jsMean numericResponses else .finite 0,
      responseCount := g.2.length
      : SemesterTrendAnalysisOutput })
  trends.insertionSort semTrendOrder

/-! ### Helper lemmas about the builders -/

theorem assignRanks_map_rank : ∀ (i : ℕ) (l : List FacultyPerformanceAggregated),
    (assignRanks i l).map (fun r => r.rank) = List.range' i l.length
  | _, [] => rfl
  | i, r :: rs => by
    rw [assignRanks, List.map_cons, List.length_cons, List.range'_succ,
      assignRanks_map_rank (i + 1) rs]

theorem assignRanks_map_avg : ∀ (i : ℕ) (l : List FacultyPerformanceAggregated),
    (assignRanks i l).map (fun r => r.averageRating) = l.map (fun r => r.averageRating)
  | _, [] => rfl
  | i, r :: rs => by
    rw [assignRanks, List.map_cons, List.map_cons, assignRanks_map_avg (i + 1) rs]

theorem assignRanks_length : ∀ (i : ℕ) (l : List FacultyPerformanceAggregated),
    (assignRanks i l).length = l.length
  | _, [] => rfl
  | i, r :: rs => by
    rw [assignRanks, List.length_cons, List.length_cons, assignRanks_length (i + 1) rs]

/-- A record failing the keep-guard leaves the grouping untouched. -/
theorem jsGroupBy_skip {κ α : Type} [BEq κ] [LawfulBEq κ] (keep : α → Bool)
    (key : α → κ) (l1 l2 : List α) (r : α) (hr : keep r = false) :
    jsGroupBy keep key (l1 ++ r :: l2) = jsGroupBy keep key (l1 ++ l2) := by
  rw [jsGroupBy_eq, jsGroupBy_eq]
  have h1 : (l1 ++ r :: l2).filter keep = (l1 ++ l2).filter keep := by
    simp [List.filter_append, List.filter_cons, hr]
  rw [h1]
  apply List.map_congr_left
  intro k _
  simp [List.filter_append, List.filter_cons, hr]

/-- The score list of `calculateOverallStats` is `filterMap posScoreOf`. -/
theorem overallScores_eq (snapshots : List Snapshot) :
    (snapshots.map (fun s => parseResponseValueToScore s.responseValue)).filterMap
      (fun o =>
        match o with
        | some n => if (JsNum.finite 0).ltb n then some n else none
        | none => none) = snapshots.filterMap posScoreOf := by
  induction snapshots with
  | nil => rfl
  | cons s t ih =>
    simp only [List.map_cons, List.filterMap_cons]
    have : (match parseResponseValueToScore s.responseValue with
        | some n => if (JsNum.finite 0).ltb n then some n else none
        | none => none) = posScoreOf s := rfl
    rw [this]
    cases posScoreOf s <;> simp [ih]

/-- Sorting does not change a sum of mapped values. -/
theorem sum_map_insertionSort {α : Type} (r : α → α → Prop) [DecidableRel r]
    (f : α → ℕ) (l : List α) :
    ((l.insertionSort r).map f).sum = (l.map f).sum :=
  ((List.perm_insertionSort r l).map f).sum_eq

/-! ### Claim C5: faculty performance ordering, ranks, and count -/

/-- Concrete three-faculty scenario with means `[4.8, 4.8, 4.2]`. -/
def facC5Snapshots : List Snapshot :=
  [ { facultyId := "F1", responseValue := .num (.finite (24 / 5)) },
    { facultyId := "F2", responseValue := .num (.finite (24 / 5)) },
    { facultyId := "F3", responseValue := .num (.finite (21 / 5)) } ]

/-- Claim C5 (confirmed): `aggregateFacultyPerformance` returns its rows
sorted descending by the (rounded) mean `averageRating`; the `rank` column
is exactly `1..n` in row order (rank 1 = highest mean), so the row count
equals the number of distinct faculties with at least one counted score;
on means `[4.8, 4.8, 4.2]` the ranks come out `1, 2, 3` with the tie
broken deterministically by first appearance (stable sort). -/
theorem aggregateFacultyPerformance_spec (snapshots : List Snapshot) :
    ((aggregateFacultyPerformance snapshots).map (fun r => r.averageRating)).Pairwise
        (fun x y => JsNum.toOrd y ≤ JsNum.toOrd x) ∧
    (aggregateFacultyPerformance snapshots).map (fun r => r.rank) =
      List.range' 1 (aggregateFacultyPerformance snapshots).length ∧
    (aggregateFacultyPerformance snapshots).length =
      ((snapshots.filter aggKept).map (fun s => s.facultyId)).toFinset.card ∧
    (aggregateFacultyPerformance facC5Snapshots).map
        (fun r => (r.facultyId, r.rank, r.averageRating)) =
      [("F1", 1, .finite (24 / 5)), ("F2", 2, .finite (24 / 5)),
        ("F3", 3, .finite (21 / 5))] := by
  refine ⟨?_, ?_, ?_, ?_⟩
  · rw [aggregateFacultyPerformance, assignRanks_map_avg, List.pairwise_map]
    exact List.sorted_insertionSort (ratingDescOrder (fun r : FacultyPerformanceAggregated => r.averageRating)) _
  · rw [aggregateFacultyPerformance, assignRanks_map_rank, assignRanks_length]
  · rw [aggregateFacultyPerformance, assignRanks_length,
      (List.perm_insertionSort _ _).length_eq, List.length_map, jsGroupBy_eq,
      List.length_map, dedupFirst_length_eq_card]
  · with_unfolding_all rfl

/-! ### Claim C9: division and academic-year orderings -/

/-- Claim C9 (confirmed): `aggregateDivisionPerformance` rows are sorted
ascending by `divisionName` and `aggregateAcademicYearTrends` rows are
sorted ascending by `academicYearString` (lexicographic, modelling
`localeCompare`). -/
theorem divisionAndYearTrends_sorted (snapshots : List Snapshot) :
    ((aggregateDivisionPerformance snapshots).map (fun r => r.divisionName)).Pairwise
        (fun x y => x ≤ y) ∧
    ((aggregateAcademicYearTrends snapshots).map (fun r => r.academicYearString)).Pairwise
        (fun x y => x ≤ y) := by
  constructor
  · rw [aggregateDivisionPerformance, List.pairwise_map]
    exact List.sorted_insertionSort (strAscOrder (fun r : DivisionPerformanceAggregated => r.divisionName)) _
  · rw [aggregateAcademicYearTrends, List.pairwise_map]
    exact List.sorted_insertionSort (strAscOrder (fun r : AcademicYearTrendAggregated => r.academicYearString)) _

/-! ### Claim C3: the three-record subject scenario -/

/-- The C3 scenario records, with the stored `lectureType` consistent with
the category names (the two Lab Performance records are lab records). -/
def subjC3Snapshots : List Snapshot :=
  [ { subjectId := "S", subjectName := "Subject S",
      questionCategoryName := some "Lab Performance", lectureType := .LAB,
      responseValue := .num (.finite 4) },
    { subjectId := "S", subjectName := "Subject S",
      questionCategoryName := some "Lab Performance", lectureType := .LAB,
      responseValue := .num (.finite 4) },
    { subjectId := "S", subjectName := "Subject S",
      questionCategoryName := some "Theory", lectureType := .LECTURE,
      responseValue := .num (.finite 3) } ]

/-- The same scenario but with every record's stored `lectureType` equal to
`LECTURE` — still satisfying the claim's description, which only pins the
`questionCategoryName` values. -/
def subjC3SnapshotsAllLecture : List Snapshot :=
  [ { subjectId := "S", subjectName := "Subject S",
      questionCategoryName := some "Lab Performance", lectureType := .LECTURE,
      responseValue := .num (.finite 4) },
    { subjectId := "S", subjectName := "Subject S",
      questionCategoryName := some "Lab Performance", lectureType := .LECTURE,
      responseValue := .num (.finite 4) },
    { subjectId := "S", subjectName := "Subject S",
      questionCategoryName := some "Theory", lectureType := .LECTURE,
      responseValue := .num (.finite 3) } ]

/-- Claim C3 (amended): on the three-record scenario `aggregateSubjectRatings`
yields labRating 4.00, lectureRating 3.00, overallRating 3.67, labResponses 2,
lectureResponses 1, totalResponses 3 — *provided* the two Lab Performance
records carry the stored field `lectureType = LAB` and the Theory record
`lectureType = LECTURE`: the builder classifies by the stored field and
never reads `questionCategoryName`. -/
theorem aggregateSubjectRatings_scenario :
    (aggregateSubjectRatings subjC3Snapshots).map
        (fun r => (r.subjectId, r.labRating, r.lectureRating, r.overallRating,
          r.labResponses, r.lectureResponses, r.totalResponses)) =
      [("S", some (.finite 4), some (.finite 3), .finite (367 / 100), 2, 1, 3)] := by
  with_unfolding_all rfl

/-- Claim C3 counterexample: the scenario's record description does not fix
the stored `lectureType`; with all three records stored as `LECTURE` (and
`questionCategoryName` exactly as the claim prescribes) the builder returns
labRating = null and labResponses = 0 instead of 4.00 and 2 — the claimed
output does not follow from the claimed input description. -/
theorem aggregateSubjectRatings_scenario_counterexample :
    ((subjC3SnapshotsAllLecture.map (fun s => s.questionCategoryName)) =
      [some "Lab Performance", some "Lab Performance", some "Theory"]) ∧
    (aggregateSubjectRatings subjC3SnapshotsAllLecture).map
        (fun r => (r.labRating, r.lectureRating, r.labResponses, r.lectureResponses)) =
      [(none, some (.finite (367 / 100)), 0, 3)] := by
  constructor
  · with_unfolding_all rfl
  · with_unfolding_all rfl

/-! ### Claim C2: what score-absent/non-positive records count towards -/

/-- A record whose raw score parses to `0`. -/
def zeroScoreSnapshot : Snapshot :=
  { subjectId := "SUB", subjectName := "S", facultyId := "F",
    divisionId := "D", studentId := some "ST", responseValue := .str "0" }

/-- A companion record with score `2` in the same group. -/
def twoScoreSnapshot : Snapshot :=
  { subjectId := "SUB", subjectName := "S", facultyId := "F",
    divisionId := "D", studentId := some "ST", responseValue := .str "2" }

/-- Claim C2 (amended): a record whose score is absent or `<= 0` is
excluded from `calculateOverallStats`' `totalResponses`/`averageRating`
and from everything the `aggregate*` rollup builders compute — but it *is*
counted by `getSubjectWiseLectureLabRating` and `getSemesterTrendAnalysis`,
whose per-group `responseCount`s always sum to the full number of fetched
records (no score filter), and it *is* included in
`calculateOverallStats`' distinct subject/faculty/student/division counts. -/
theorem excludedScore_amended :
    (∀ (l1 l2 : List Snapshot) (r : Snapshot), posScoreOf r = none →
      (calculateOverallStats (l1 ++ r :: l2)).totalResponses =
          (calculateOverallStats (l1 ++ l2)).totalResponses ∧
        (calculateOverallStats (l1 ++ r :: l2)).averageRating =
          (calculateOverallStats (l1 ++ l2)).averageRating) ∧
    (∀ (l1 l2 : List Snapshot) (r : Snapshot), aggScoreOf r = none →
      aggregateSubjectRatings (l1 ++ r :: l2) = aggregateSubjectRatings (l1 ++ l2)) ∧
    (∀ snapshots : List Snapshot,
      ((getSubjectWiseLectureLabRating snapshots).map (fun r => r.responseCount)).sum =
        snapshots.length) ∧
    (∀ snapshots : List Snapshot,
      ((getSemesterTrendAnalysis snapshots).map (fun r => r.responseCount)).sum =
        snapshots.length) := by
  refine ⟨?_, ?_, ?_, ?_⟩
  · intro l1 l2 r hr
    have hscores : (l1 ++ r :: l2).filterMap posScoreOf = (l1 ++ l2).filterMap posScoreOf := by
      simp [List.filterMap_append, List.filterMap_cons, hr]
    constructor <;>
      simp only [calculateOverallStats, overallScores_eq, hscores]
  · intro l1 l2 r hr
    have hkept : aggKept r = false := by
      unfold aggKept
      rw [hr]
      rfl
    rw [aggregateSubjectRatings, aggregateSubjectRatings,
      jsGroupBy_skip _ _ _ _ _ hkept]
  · intro snapshots
    have key := jsGroupBy_sumLens (fun _ : Snapshot => true)
      (fun s => s.subjectName ++ "|" ++ lectureTypeStr (wllLectureType s)) snapshots
    rw [List.filter_true] at key
    rw [getSubjectWiseLectureLabRating, sum_map_insertionSort, List.map_map]
    exact key
  · intro snapshots
    have key := jsGroupBy_sumLens (fun _ : Snapshot => true)
      (fun s => toString s.semesterNumber ++ "|" ++ s.subjectName) snapshots
    rw [List.filter_true] at key
    rw [getSemesterTrendAnalysis, sum_map_insertionSort, List.map_map]
    exact key

/-- Witness for the C2 amended theorem at concrete inputs. -/
theorem excludedScore_amended_witness :
    posScoreOf zeroScoreSnapshot = none ∧
    aggScoreOf zeroScoreSnapshot = none ∧
    (calculateOverallStats [zeroScoreSnapshot]).totalResponses =
      (calculateOverallStats []).totalResponses ∧
    aggregateSubjectRatings [zeroScoreSnapshot] = aggregateSubjectRatings [] ∧
    ((getSubjectWiseLectureLabRating [zeroScoreSnapshot]).map
      (fun r => r.responseCount)).sum = 1 := by
  have hpos : posScoreOf zeroScoreSnapshot = none := by with_unfolding_all decide
  have hagg : aggScoreOf zeroScoreSnapshot = none := by with_unfolding_all decide
  refine ⟨hpos, hagg, ?_, ?_, ?_⟩
  · exact (excludedScore_amended.1 [] [] zeroScoreSnapshot hpos).1
  · exact excludedScore_amended.2.1 [] [] zeroScoreSnapshot hagg
  · exact excludedScore_amended.2.2.1 [zeroScoreSnapshot]

/-- Claim C2 counterexample: a single record with raw score `"0"` (parsed
score `0 <= 0`) *is* counted: `getSubjectWiseLectureLabRating` reports
`responseCount = 1` for its group, `getSemesterTrendAnalysis` likewise,
its parseable score enters the legacy mean (`mean [2, 0] = 1.00`, not `2`),
and `calculateOverallStats` counts its subject/faculty/student/division
in the distinct counts. -/
theorem excludedScore_counterexample :
    parseResponseValueToScore zeroScoreSnapshot.responseValue = some (.finite 0) ∧
    (getSubjectWiseLectureLabRating [zeroScoreSnapshot]).map
        (fun r => r.responseCount) = [1] ∧
    (getSemesterTrendAnalysis [zeroScoreSnapshot]).map
        (fun r => r.responseCount) = [1] ∧
    (getSubjectWiseLectureLabRating [twoScoreSnapshot, zeroScoreSnapshot]).map
        (fun r => (r.averageRating, r.responseCount)) = [(.finite 1, 2)] ∧
    (calculateOverallStats [zeroScoreSnapshot]).uniqueSubjects = 1 ∧
    (calculateOverallStats [zeroScoreSnapshot]).uniqueFaculties = 1 ∧
    (calculateOverallStats [zeroScoreSnapshot]).uniqueStudents = 1 ∧
    (calculateOverallStats [zeroScoreSnapshot]).uniqueDivisions = 1 := by
  refine ⟨?_, ?_, ?_, ?_, ?_, ?_, ?_, ?_⟩ <;> with_unfolding_all rfl

/-! ### Detail (drill-down) builders -/

/-- An `AppError` (message + HTTP status). -/
structure AppErr where
  message : String
  statusCode : ℕ
  deriving DecidableEq

/-- Result of the existence lookup in the base entity table
(`prisma.<entity>.findUnique` selecting `name`/`isDeleted`). -/
structure EntityInfo where
  name : String
  isDeleted : Bool
  deriving DecidableEq

/-- Truthiness of `questionCategoryId` (`!s.questionCategoryId` guard). -/
def qCatIdTruthy (s : Snapshot) : Bool :=
  match s.questionCategoryId with
  | some c => c != ""
  | none => false

/-- Truthiness of `questionCategoryName`. -/
def qCatNameTruthy (s : Snapshot) : Bool :=
  match s.questionCategoryName with
  | some c => c != ""
  | none => false

/-- The three-way not-found error of `getSubjectDetailedAnalytics`
(lines 2616–2630). -/
def subjectNotFoundError (subjectId : String) (lookup : Option EntityInfo) : AppErr :=
  match lookup with
  | none => ⟨"Subject with ID " ++ subjectId ++ " does not exist.", 404⟩
  | some e =>
    if e.isDeleted then ⟨"Subject \"" ++ e.name ++ "\" has been deleted.", 404⟩
    else
      ⟨"Subject \"" ++ e.name ++ "\" has no feedback data matching the selected filters.",
        404⟩

/-- The three-way not-found error of `getFacultyDetailedAnalytics`
(lines 2859–2873). -/
def facultyNotFoundError (facultyId : String) (lookup : Option EntityInfo) : AppErr :=
  match lookup with
  | none => ⟨"Faculty with ID " ++ facultyId ++ " does not exist.", 404⟩
  | some e =>
    if e.isDeleted then ⟨"Faculty \"" ++ e.name ++ "\" has been deleted.", 404⟩
    else
      ⟨"Faculty \"" ++ e.name ++ "\" has no feedback data matching the selected filters.",
        404⟩

/-- The three-way not-found error of `getDivisionDetailedAnalytics`
(lines 3178–3192). -/
def divisionNotFoundError (divisionId : String) (lookup : Option EntityInfo) : AppErr :=
  match lookup with
  | none => ⟨"Division with ID " ++ divisionId ++ " does not exist.", 404⟩
  | some e =>
    if e.isDeleted then ⟨"Division \"" ++ e.name ++ "\" has been deleted.", 404⟩
    else
      ⟨"Division \"" ++ e.name ++ "\" has no feedback data matching the selected filters.",
        404⟩

/-- The `subject` header of a subject-detail payload. -/
structure SubjectEntity where
  id : String
  name : String
  abbreviation : String
  code : String
  deriving DecidableEq

/-- Faculty-breakdown row of the subject detail. -/
structure SubjectFacultyRow where
  facultyId : String
  facultyName : String
  facultyAbbreviation : String
  lectureType : LectureType
  rating : JsNum
  responses : ℕ
  divisions : List String
  deriving DecidableEq

/-- Division-breakdown row of the subject detail. -/
structure SubjectDivisionRow where
  divisionId : String
  divisionName : String
  lectureRating : Option JsNum
  labRating : Option JsNum
  totalRating : JsNum
  responses : ℕ
  deriving DecidableEq

/-- Question-category row of the subject detail. -/
structure SubjectQuestionRow where
  categoryId : String
  categoryName : Option String
  avgRating : JsNum
  questionCount : ℕ
  deriving DecidableEq

/-- Subject-detail payload. -/
structure SubjectDetailedAnalytics where
  subject : SubjectEntity
  overallRating : JsNum
  lectureRating : Option JsNum
  labRating : Option JsNum
  totalResponses : ℕ
  lectureResponses : ℕ
  labResponses : ℕ
  facultyBreakdown : List SubjectFacultyRow
  divisionBreakdown : List SubjectDivisionRow
  questionBreakdown : List SubjectQuestionRow
  deriving DecidableEq

/-- `getSubjectDetailedAnalytics` (lines 2564–2812), pure core over the
fetched snapshot collection and the independent subject lookup: with zero
snapshots it fails with the three-way not-found error; otherwise it
classifies by `deriveLectureType`, keeps scores `> 0`, and builds the
top-level ratings plus faculty (by faculty×lectureType), division (by
division, lecture/lab split) and question-category breakdowns. -/
def getSubjectDetailedAnalytics (subjectId : String) (snapshots : List Snapshot)
    (lookup : Option EntityInfo) : Except AppErr SubjectDetailedAnalytics :=
  if snapshots.length = 0 then .error (subjectNotFoundError subjectId lookup)
  else
    let firstSnapshot := snapshots.headI
    let lectureScores := snapshots.filterMap
      (fun s => if deriveLectureType s == LectureType.LECTURE then posScoreOf s else none)
    let labScores := snapshots.filterMap
      (fun s => if deriveLectureType s == LectureType.LECTURE then none else posScoreOf s)
    let allScores := lectureScores ++ labScores
    let facultyBreakdown := (jsGroupBy aggKept
        (fun s => s.facultyId ++ "-" ++ lectureTypeStr (deriveLectureType s)) snapshots).map
      (fun g =>
        let f := g.2.headI
        let scores := g.2.filterMap aggScoreOf
        { facultyId := f.facultyId,
          facultyName := f.facultyName,
          facultyAbbreviation := f.facultyAbbreviation,
          lectureType := deriveLectureType f,
          rating := jsMean scores,
          responses := scores.length,
          divisions := dedupFirst (g.2.map (fun s => s.divisionName))
          : SubjectFacultyRow })
    let divisionBreakdown := (jsGroupBy aggKept (fun s => s.divisionId) snapshots).map
      (fun g =>
        let d := g.2.headI
        let dLec := g.2.filterMap
          (fun s => if deriveLectureType s == LectureType.LECTURE then aggScoreOf s else none)
        let dLab := g.2.filterMap
          (fun s => if deriveLectureType s == LectureType.LECTURE then none else aggScoreOf s)
        let allDiv := dLec ++ dLab
        { divisionId := d.divisionId,
          divisionName := d.divisionName,
          lectureRating := if 0 < dLec.length then some (jsMean dLec) else none,
          labRating := if 0 < dLab.length then some (jsMean dLab) else none,
          totalRating := if 0 < allDiv.length then jsMean allDiv else .finite 0,
          responses := allDiv.length
          : SubjectDivisionRow })
    let questionBreakdown := (jsGroupBy (fun s => aggKept s && qCatIdTruthy s)
        (fun s => (s.questionCategoryId).getD "") snapshots).map
      (fun g =>
        let scores := g.2.filterMap aggScoreOf
        { categoryId := g.1,
          categoryName := (g.2.headI).questionCategoryName,
          avgRating := jsMean scores,
          questionCount := scores.length
          : SubjectQuestionRow })
    .ok
      { subject :=
          { id := firstSnapshot.subjectId, name := firstSnapshot.subjectName,
            abbreviation := firstSnapshot.subjectAbbreviation,
            code := firstSnapshot.subjectCode },
        overallRating := if 0 < allScores.length then jsMean allScores else .finite 0,
        lectureRating := if 0 < lectureScores.length then some (jsMean lectureScores) else none,
        labRating := if 0 < labScores.length then some (jsMean labScores) else none,
        totalResponses := allScores.length,
        lectureResponses := lectureScores.length,
        labResponses := labScores.length,
        facultyBreakdown := facultyBreakdown,
        divisionBreakdown := divisionBreakdown,
        questionBreakdown := questionBreakdown }

/-- The `faculty` header of a faculty-detail payload. -/
structure FacultyEntity where
  id : String
  name : String
  abbreviation : String
  designation : String
  deriving DecidableEq

/-- Subject-breakdown row of the faculty detail. -/
structure FacultySubjectRow where
  subjectId : String
  subjectName : String
  subjectAbbreviation : String
  lectureType : LectureType
  rating : JsNum
  responses : ℕ
  semester : ℤ
  academicYear : String
  deriving DecidableEq

/-- Division-breakdown row of the faculty detail. -/
structure FacultyDivisionRow where
  divisionId : String
  divisionName : String
  subjectName : String
  lectureType : LectureType
  rating : JsNum
  responses : ℕ
  deriving DecidableEq

/-- Question-category row of the faculty detail. -/
structure FacultyCategoryRow where
  category : String
  avgRating : JsNum
  questionCount : ℕ
  deriving DecidableEq

/-- Chronological trend row of the faculty detail. -/
structure FacultyTrendRow where
  academicYearId : String
  academicYear : String
  semester : ℤ
  rating : JsNum
  responses : ℕ
  deriving DecidableEq

/-- Faculty-detail payload. -/
structure FacultyDetailedAnalytics where
  faculty : FacultyEntity
  overallRating : JsNum
  totalResponses : ℕ
  rank : ℕ
  totalFaculty : ℕ
  subjectBreakdown : List FacultySubjectRow
  divisionBreakdown : List FacultyDivisionRow
  questionCategoryBreakdown : List FacultyCategoryRow
  trendData : List FacultyTrendRow
  deriving DecidableEq

/-- Stable-sort order of the faculty trend rows:
`a.academicYear.localeCompare(b.academicYear) || a.semester - b.semester`. -/
def facTrendOrder (a b : FacultyTrendRow) : Prop :=
  a.academicYear < b.academicYear ∨
    (a.academicYear = b.academicYear ∧ a.semester ≤ b.semester)

instance : DecidableRel facTrendOrder := fun _ _ =>
  inferInstanceAs (Decidable (_ ∨ _))

/-- The `facultyScoreMap`/`rankedFaculty` computation of
`getFacultyDetailedAnalytics` (lines 2918–2933): per-faculty *unrounded*
means over the all-faculty snapshot set, sorted descending. -/
def rankedFacultyOf (allFacultySnapshots : List Snapshot) : List (String × JsNum) :=
  ((jsGroupBy aggKept (fun s => s.facultyId) allFacultySnapshots).map
    (fun g =>
      let scores := g.2.filterMap aggScoreOf
      (g.1, (jsSum scores).divNat scores.length))).insertionSort
    (ratingDescOrder (fun p : String × JsNum => p.2))

/-- `getFacultyDetailedAnalytics` (lines 2814–3098), pure core over the
entity-scoped snapshot fetch, the *separate* all-faculty snapshot fetch
used only for ranking, the faculty lookup and its designation: rank is the
1-based position of the faculty in the list of per-faculty unrounded means
over the all-faculty set, sorted descending (`0` when absent), and
`totalFaculty` is that list's length. -/
def getFacultyDetailedAnalytics (facultyId : String)
    (snapshots allFacultySnapshots : List Snapshot)
    (lookup : Option EntityInfo) (designation : Option String) :
    Except AppErr FacultyDetailedAnalytics :=
  if snapshots.length = 0 then .error (facultyNotFoundError facultyId lookup)
  else
    let firstSnapshot := snapshots.headI
    let allScores := (snapshots.map (fun s => parseResponseValueToScore s.responseValue)).filterMap
      (fun o =>
        match o with
        | some n => if (JsNum.finite 0).ltb n then some n else none
        | none => none)
    let rankedFaculty := rankedFacultyOf allFacultySnapshots
    let rank :=
      match rankedFaculty.findIdx? (fun f => f.1 == facultyId) with
      | some i => i + 1
      | none => 0
    let totalFaculty := rankedFaculty.length
    let subjectBreakdown := (jsGroupBy aggKept
        (fun s => s.subjectId ++ "-" ++ lectureTypeStr (deriveLectureType s)) snapshots).map
      (fun g =>
        let f := g.2.headI
        let scores := g.2.filterMap aggScoreOf
        { subjectId := f.subjectId,
          subjectName := f.subjectName,
          subjectAbbreviation := f.subjectAbbreviation,
          lectureType := deriveLectureType f,
          rating := jsMean scores,
          responses := scores.length,
          semester := f.semesterNumber,
          academicYear := f.academicYearString
          : FacultySubjectRow })
    let divisionBreakdown := (jsGroupBy aggKept
        (fun s => s.divisionId ++ "-" ++ s.subjectId ++ "-" ++
          lectureTypeStr (deriveLectureType s)) snapshots).map
      (fun g =>
        let d := g.2.headI
        let scores := g.2.filterMap aggScoreOf
        { divisionId := d.divisionId,
          divisionName := d.divisionName,
          subjectName := d.subjectName,
          lectureType := deriveLectureType d,
          rating := jsMean scores,
          responses := scores.length
          : FacultyDivisionRow })
    let questionCategoryBreakdown := (jsGroupBy (fun s => aggKept s && qCatNameTruthy s)
        (fun s => (s.questionCategoryName).getD "") snapshots).map
      (fun g =>
        let scores := g.2.filterMap aggScoreOf
        { category := g.1,
          avgRating := jsMean scores,
          questionCount := scores.length
          : FacultyCategoryRow })
    let trendData := ((jsGroupBy aggKept
        (fun s => s.academicYearId ++ "-" ++ toString s.semesterNumber) snapshots).map
      (fun g =>
        let t := g.2.headI
        let scores := g.2.filterMap aggScoreOf
        { academicYearId := t.academicYearId,
          academicYear := t.academicYearString,
          semester := t.semesterNumber,
          rating := jsMean scores,
          responses := scores.length
          : FacultyTrendRow })).insertionSort facTrendOrder
    .ok
      { faculty :=
          { id := firstSnapshot.facultyId, name := firstSnapshot.facultyName,
            abbreviation := firstSnapshot.facultyAbbreviation,
            designation := (designation.getD "") },
        overallRating := if 0 < allScores.length then jsMean allScores else .finite 0,
        totalResponses := allScores.length,
        rank := rank,
        totalFaculty := totalFaculty,
        subjectBreakdown := subjectBreakdown,
        divisionBreakdown := divisionBreakdown,
        questionCategoryBreakdown := questionCategoryBreakdown,
        trendData := trendData }

/-- The `division` header of a division-detail payload. -/
structure DivisionEntity where
  id : String
  name : String
  departmentName : String
  semesterNumber : ℤ
  deriving DecidableEq

/-- Faculty-breakdown row of the division detail. -/
structure DivisionFacultyRow where
  facultyId : String
  facultyName : String
  facultyAbbreviation : String
  subjectName : String
  lectureType : LectureType
  rating : JsNum
  responses : ℕ
  deriving DecidableEq

/-- Subject-breakdown row of the division detail. -/
structure DivisionSubjectRow where
  subjectId : String
  subjectName : String
  subjectAbbreviation : String
  lectureRating : Option JsNum
  labRating : Option JsNum
  totalRating : JsNum
  responses : ℕ
  deriving DecidableEq

/-- Academic-year comparison row of the division detail. -/
structure DivisionYearRow where
  academicYearId : String
  academicYearString : String
  rating : JsNum
  responses : ℕ
  deriving DecidableEq

/-- Division-detail payload. -/
structure DivisionDetailedAnalytics where
  division : DivisionEntity
  overallRating : JsNum
  totalResponses : ℕ
  facultyBreakdown : List DivisionFacultyRow
  subjectBreakdown : List DivisionSubjectRow
  academicYearComparison : List DivisionYearRow
  deriving DecidableEq

/-- The subject breakdown of the division detail (lines 3255–3303):
grouped by `subjectId`, scores split by `deriveLectureType`. -/
def divisionSubjectBreakdown (snapshots : List Snapshot) : List DivisionSubjectRow :=
  (jsGroupBy aggKept (fun s => s.subjectId) snapshots).map
    (fun g =>
      let sb := g.2.headI
      let sLec := g.2.filterMap
        (fun s => if deriveLectureType s == LectureType.LECTURE then aggScoreOf s else none)
      let sLab := g.2.filterMap
        (fun s => if deriveLectureType s == LectureType.LECTURE then none else aggScoreOf s)
      let allSubj := sLec ++ sLab
      { subjectId := sb.subjectId,
        subjectName := sb.subjectName,
        subjectAbbreviation := sb.subjectAbbreviation,
        lectureRating := if 0 < sLec.length then some (jsMean sLec) else none,
        labRating := if 0 < sLab.length then some (jsMean sLab) else none,
        totalRating := if 0 < allSubj.length then jsMean allSubj else .finite 0,
        responses := allSubj.length
        : DivisionSubjectRow })

/-- `getDivisionDetailedAnalytics` (lines 3132–3355), pure core over the
fetched snapshot collection and the division lookup. -/
def getDivisionDetailedAnalytics (divisionId : String) (snapshots : List Snapshot)
    (lookup : Option EntityInfo) : Except AppErr DivisionDetailedAnalytics :=
  if snapshots.length = 0 then .error (divisionNotFoundError divisionId lookup)
  else
    let firstSnapshot := snapshots.headI
    let allScores := (snapshots.map (fun s => parseResponseValueToScore s.responseValue)).filterMap
      (fun o =>
        match o with
        | some n => if (JsNum.finite 0).ltb n then some n else none
        | none => none)
    let facultyBreakdown := (jsGroupBy aggKept
        (fun s => s.facultyId ++ "-" ++ s.subjectId ++ "-" ++
          lectureTypeStr (deriveLectureType s)) snapshots).map
      (fun g =>
        let f := g.2.headI
        let scores := g.2.filterMap aggScoreOf
        { facultyId := f.facultyId,
          facultyName := f.facultyName,
          facultyAbbreviation := f.facultyAbbreviation,
          subjectName := f.subjectName,
          lectureType := deriveLectureType f,
          rating := jsMean scores,
          responses := scores.length
          : DivisionFacultyRow })
    let subjectBreakdown := divisionSubjectBreakdown snapshots
    let academicYearComparison := ((jsGroupBy aggKept (fun s => s.academicYearId) snapshots).map
      (fun g =>
        let y := g.2.headI
        let scores := g.2.filterMap aggScoreOf
        { academicYearId := y.academicYearId,
          academicYearString := y.academicYearString,
          rating := jsMean scores,
          responses := scores.length
          : DivisionYearRow })).insertionSort
        (strAscOrder (fun r : DivisionYearRow => r.academicYearString))
    .ok
      { division :=
          { id := firstSnapshot.divisionId, name := firstSnapshot.divisionName,
            departmentName := firstSnapshot.departmentName,
            semesterNumber := firstSnapshot.semesterNumber },
        overallRating := if 0 < allScores.length then jsMean allScores else .finite 0,
        totalResponses := allScores.length,
        facultyBreakdown := facultyBreakdown,
        subjectBreakdown := subjectBreakdown,
        academicYearComparison := academicYearComparison }

/-! ### Database-level model of the faculty-detail fetches -/

/-- Optional academic-year condition of a Prisma `where`. -/
def ayMatch (ay : Option String) (s : Snapshot) : Bool :=
  match ay with
  | some a => s.academicYearId == a
  | none => true

/-- The entity-scoped fetch of `getFacultyDetailedAnalytics`
(lines 2820–2855): target faculty plus all deletion flags. -/
def facultyMainFetch (db : List Snapshot) (facultyId : String)
    (ay : Option String) : List Snapshot :=
  db.filter (fun s => (s.facultyId == facultyId) && !s.isDeleted &&
    !s.formIsDeleted && !s.questionIsDeleted && !s.semesterIsDeleted &&
    !s.divisionIsDeleted && !s.subjectIsDeleted && !s.academicYearIsDeleted &&
    ayMatch ay s)

/-- The ranking fetch of `getFacultyDetailedAnalytics` (lines 2904–2916):
*no* faculty condition — only three deletion flags and the optional
academic year. -/
def facultyRankFetch (db : List Snapshot) (ay : Option String) : List Snapshot :=
  db.filter (fun s => !s.isDeleted && !s.formIsDeleted &&
    !s.academicYearIsDeleted && ayMatch ay s)

/-- `getFacultyDetailedAnalytics` with both fetches performed against an
explicit snapshot database. -/
def getFacultyDetailedAnalyticsDb (db : List Snapshot) (facultyId : String)
    (ay : Option String) (lookup : Option EntityInfo)
    (designation : Option String) : Except AppErr FacultyDetailedAnalytics :=
  getFacultyDetailedAnalytics facultyId (facultyMainFetch db facultyId ay)
    (facultyRankFetch db ay) lookup designation

/-! ### Claim C7: the three-way not-found distinction -/

theorem string_data_append (a b : String) : (a ++ b).data = a.data ++ b.data := by
  cases a
  cases b
  rfl

/-- Two `prefix ++ middle ++ suffix` strings differ whenever their
suffixes differ at some position from the right end. -/
theorem string_append3_ne (p1 m1 s1 p2 m2 s2 : String) (k : ℕ)
    (h1 : k < s1.data.length) (h2 : k < s2.data.length)
    (hne : s1.data.reverse[k]? ≠ s2.data.reverse[k]?) :
    p1 ++ m1 ++ s1 ≠ p2 ++ m2 ++ s2 := by
  intro heq
  apply hne
  have hd := congrArg String.data heq
  rw [string_data_append, string_data_append, string_data_append,
    string_data_append] at hd
  have hr := congrArg List.reverse hd
  simp only [List.reverse_append] at hr
  have hk := congrArg (fun l : List Char => l[k]?) hr
  simp only at hk
  rw [List.getElem?_append_left (by simpa using h1),
    List.getElem?_append_left (by simpa using h2)] at hk
  exact hk

theorem subjectNotFoundError_status (entityId : String) (lookup : Option EntityInfo) :
    (subjectNotFoundError entityId lookup).statusCode = 404 := by
  cases lookup with
  | none => rfl
  | some e =>
    unfold subjectNotFoundError
    by_cases h : e.isDeleted <;> simp [h]

theorem facultyNotFoundError_status (entityId : String) (lookup : Option EntityInfo) :
    (facultyNotFoundError entityId lookup).statusCode = 404 := by
  cases lookup with
  | none => rfl
  | some e =>
    unfold facultyNotFoundError
    by_cases h : e.isDeleted <;> simp [h]

theorem divisionNotFoundError_status (entityId : String) (lookup : Option EntityInfo) :
    (divisionNotFoundError entityId lookup).statusCode = 404 := by
  cases lookup with
  | none => rfl
  | some e =>
    unfold divisionNotFoundError
    by_cases h : e.isDeleted <;> simp [h]

/-- Claim C7 (confirmed): with zero matching snapshots each detail builder
fails with its three-way not-found error; all three causes share status
404, and for every entity id and name the three message texts are pairwise
distinct (they end in different fixed suffixes), for each of the subject,
faculty and division builders. -/
theorem detail_notFound_distinction (entityId entityName : String) :
    (∀ lookup : Option EntityInfo,
      getSubjectDetailedAnalytics entityId [] lookup =
          .error (subjectNotFoundError entityId lookup) ∧
        getFacultyDetailedAnalytics entityId [] [] lookup none =
          .error (facultyNotFoundError entityId lookup) ∧
        getDivisionDetailedAnalytics entityId [] lookup =
          .error (divisionNotFoundError entityId lookup) ∧
        (subjectNotFoundError entityId lookup).statusCode = 404 ∧
        (facultyNotFoundError entityId lookup).statusCode = 404 ∧
        (divisionNotFoundError entityId lookup).statusCode = 404) ∧
    ((subjectNotFoundError entityId none).message ≠
        (subjectNotFoundError entityId (some ⟨entityName, true⟩)).message ∧
      (subjectNotFoundError entityId none).message ≠
        (subjectNotFoundError entityId (some ⟨entityName, false⟩)).message ∧
      (subjectNotFoundError entityId (some ⟨entityName, true⟩)).message ≠
        (subjectNotFoundError entityId (some ⟨entityName, false⟩)).message) ∧
    ((facultyNotFoundError entityId none).message ≠
        (facultyNotFoundError entityId (some ⟨entityName, true⟩)).message ∧
      (facultyNotFoundError entityId none).message ≠
        (facultyNotFoundError entityId (some ⟨entityName, false⟩)).message ∧
      (facultyNotFoundError entityId (some ⟨entityName, true⟩)).message ≠
        (facultyNotFoundError entityId (some ⟨entityName, false⟩)).message) ∧
    ((divisionNotFoundError entityId none).message ≠
        (divisionNotFoundError entityId (some ⟨entityName, true⟩)).message ∧
      (divisionNotFoundError entityId none).message ≠
        (divisionNotFoundError entityId (some ⟨entityName, false⟩)).message ∧
      (divisionNotFoundError entityId (some ⟨entityName, true⟩)).message ≠
        (divisionNotFoundError entityId (some ⟨entityName, false⟩)).message) := by
  have hed : (" does not exist." : String).data.reverse[1]? ≠
      ("\" has been deleted." : String).data.reverse[1]? := by
    with_unfolding_all decide
  have hef : (" does not exist." : String).data.reverse[1]? ≠
      ("\" has no feedback data matching the selected filters." : String).data.reverse[1]? := by
    with_unfolding_all decide
  have hdf : ("\" has been deleted." : String).data.reverse[1]? ≠
      ("\" has no feedback data matching the selected filters." : String).data.reverse[1]? := by
    with_unfolding_all decide
  have hlen1 : 1 < (" does not exist." : String).data.length := by
    with_unfolding_all decide
  have hlen2 : 1 < ("\" has been deleted." : String).data.length := by
    with_unfolding_all decide
  have hlen3 : 1 <
      ("\" has no feedback data matching the selected filters." : String).data.length := by
    with_unfolding_all decide
  refine ⟨?_, ⟨?_, ?_, ?_⟩, ⟨?_, ?_, ?_⟩, ⟨?_, ?_, ?_⟩⟩
  · intro lookup
    exact ⟨rfl, rfl, rfl, subjectNotFoundError_status entityId lookup,
      facultyNotFoundError_status entityId lookup,
      divisionNotFoundError_status entityId lookup⟩
  · exact string_append3_ne "Subject with ID " entityId " does not exist."
      "Subject \"" entityName "\" has been deleted." 1 hlen1 hlen2 hed
  · exact string_append3_ne "Subject with ID " entityId " does not exist."
      "Subject \"" entityName
      "\" has no feedback data matching the selected filters." 1 hlen1 hlen3 hef
  · exact string_append3_ne "Subject \"" entityName "\" has been deleted."
      "Subject \"" entityName
      "\" has no feedback data matching the selected filters." 1 hlen2 hlen3 hdf
  · exact string_append3_ne "Faculty with ID " entityId " does not exist."
      "Faculty \"" entityName "\" has been deleted." 1 hlen1 hlen2 hed
  · exact string_append3_ne "Faculty with ID " entityId " does not exist."
      "Faculty \"" entityName
      "\" has no feedback data matching the selected filters." 1 hlen1 hlen3 hef
  · exact string_append3_ne "Faculty \"" entityName "\" has been deleted."
      "Faculty \"" entityName
      "\" has no feedback data matching the selected filters." 1 hlen2 hlen3 hdf
  · exact string_append3_ne "Division with ID " entityId " does not exist."
      "Division \"" entityName "\" has been deleted." 1 hlen1 hlen2 hed
  · exact string_append3_ne "Division with ID " entityId " does not exist."
      "Division \"" entityName
      "\" has no feedback data matching the selected filters." 1 hlen1 hlen3 hef
  · exact string_append3_ne "Division \"" entityName "\" has been deleted."
      "Division \"" entityName
      "\" has no feedback data matching the selected filters." 1 hlen2 hlen3 hdf

/-! ### Claims C6 and C10: rank against the wider all-faculty set -/

instance : Inhabited FacultyDetailedAnalytics :=
  ⟨{ faculty := ⟨"", "", "", ""⟩, overallRating := .finite 0, totalResponses := 0,
     rank := 0, totalFaculty := 0, subjectBreakdown := [], divisionBreakdown := [],
     questionCategoryBreakdown := [], trendData := [] }⟩

/-- Modelled from the spec: the set of faculties "with data" in a record
collection — those having at least one counted (positive) score. -/
def specFacultiesWithData (records : List Snapshot) : List String :=
  dedupFirst ((records.filter aggKept).map (fun s => s.facultyId))

/-- Modelled from the spec: a faculty's unrounded mean over a record
collection. -/
def specFacultyMeanUnrounded (records : List Snapshot) (fid : String) : JsNum :=
  let scores := (records.filter (fun s => s.facultyId == fid)).filterMap aggScoreOf
  (jsSum scores).divNat scores.length

/-- Modelled from the spec: all faculty with data, paired with their
means, sorted descending by mean. -/
def specRankedFaculty (records : List Snapshot) : List (String × JsNum) :=
  ((specFacultiesWithData records).map
    (fun fid => (fid, specFacultyMeanUnrounded records fid))).insertionSort
    (ratingDescOrder (fun p : String × JsNum => p.2))

/-- Modelled from the spec: 1-based position of a faculty in the
descending mean order over a record collection; `0` when absent. -/
def specRank (records : List Snapshot) (fid : String) : ℕ :=
  match (specRankedFaculty records).findIdx? (fun p => p.1 == fid) with
  | some i => i + 1
  | none => 0

theorem aggScoreOf_eq_none_of_not_kept {s : Snapshot} (h : aggKept s = false) :
    aggScoreOf s = none := by
  unfold aggKept at h
  cases ho : aggScoreOf s
  · rfl
  · rw [ho] at h
    simp at h

/-- Restricting a filter to kept records does not change the extracted
score list. -/
theorem filter_kept_filterMap_agg (l : List Snapshot) (p : Snapshot → Bool) :
    (l.filter (fun s => aggKept s && p s)).filterMap aggScoreOf =
      (l.filter p).filterMap aggScoreOf := by
  rw [List.filterMap_filter, List.filterMap_filter]
  apply List.filterMap_congr
  intro s _
  cases hk : aggKept s
  · rw [aggScoreOf_eq_none_of_not_kept hk]
    cases hp : p s <;> simp
  · cases hp : p s <;> simp

/-- The builder's ranking list equals its spec-worded counterpart. -/
theorem rankedFacultyOf_eq_spec (allFacultySnapshots : List Snapshot) :
    rankedFacultyOf allFacultySnapshots = specRankedFaculty allFacultySnapshots := by
  unfold rankedFacultyOf specRankedFaculty
  congr 1
  rw [jsGroupBy_eq, List.map_map]
  unfold specFacultiesWithData
  apply List.map_congr_left
  intro k _
  simp only [Function.comp]
  have hs : (allFacultySnapshots.filter
        (fun s => aggKept s && ((fun s => s.facultyId) s == k))).filterMap aggScoreOf =
      (allFacultySnapshots.filter (fun s => s.facultyId == k)).filterMap aggScoreOf :=
    filter_kept_filterMap_agg allFacultySnapshots (fun s => s.facultyId == k)
  rw [hs]
  rfl

/-- Shared content of C6 and C10: on a successful faculty-detail build,
`rank` and `totalFaculty` are exactly the spec quantities computed over
the *rank fetch* (year-filtered, never faculty-filtered). -/
theorem facultyDetailDb_rank_totalFaculty (db : List Snapshot) (fid : String)
    (ay : Option String) (lookup : Option EntityInfo) (desig : Option String)
    (out : FacultyDetailedAnalytics)
    (h : getFacultyDetailedAnalyticsDb db fid ay lookup desig = .ok out) :
    out.totalFaculty = (specFacultiesWithData (facultyRankFetch db ay)).length ∧
    out.rank = specRank (facultyRankFetch db ay) fid := by
  rw [getFacultyDetailedAnalyticsDb, getFacultyDetailedAnalytics] at h
  split at h
  · exact absurd h (by simp)
  · rw [Except.ok.injEq] at h
    subst h
    constructor
    · show (rankedFacultyOf (facultyRankFetch db ay)).length = _
      rw [rankedFacultyOf_eq_spec, specRankedFaculty,
        (List.perm_insertionSort _ _).length_eq, List.length_map]
    · show (match (rankedFacultyOf (facultyRankFetch db ay)).findIdx?
          (fun f => f.1 == fid) with
        | some i => i + 1
        | none => 0) = _
      rw [rankedFacultyOf_eq_spec]
      rfl

/-- Concrete two-faculty database: F1 (the target) has one record with
score 3; F2 has one record with score 5. -/
def c6Db : List Snapshot :=
  [ { facultyId := "F1", responseValue := .num (.finite 3) },
    { facultyId := "F2", responseValue := .num (.finite 5) } ]

/-- The successful payload of the concrete C6 run. -/
def c6Out : FacultyDetailedAnalytics :=
  (getFacultyDetailedAnalyticsDb c6Db "F1" none none none).toOption.getD default

/-- Claim C6 (confirmed): in `getFacultyDetailedAnalyticsDb`, `rank` and
`totalFaculty` are computed over the separate rank fetch — filtered only
by deletion flags and the optional academic year, never by the target
`facultyId` — so they equal the spec quantities over that wider set; on
the concrete two-faculty database the target's own fetch has one record
yet `rank = 2` and `totalFaculty = 2`. -/
theorem facultyRank_wider_set :
    (∀ (db : List Snapshot) (fid : String) (ay : Option String)
        (lookup : Option EntityInfo) (desig : Option String)
        (out : FacultyDetailedAnalytics),
      getFacultyDetailedAnalyticsDb db fid ay lookup desig = .ok out →
        out.totalFaculty = (specFacultiesWithData (facultyRankFetch db ay)).length ∧
        out.rank = specRank (facultyRankFetch db ay) fid) ∧
    (facultyMainFetch c6Db "F1" none).length = 1 ∧
    getFacultyDetailedAnalyticsDb c6Db "F1" none none none = .ok c6Out ∧
    c6Out.rank = 2 ∧ c6Out.totalFaculty = 2 := by
  refine ⟨?_, ?_, ?_, ?_, ?_⟩
  · exact facultyDetailDb_rank_totalFaculty
  · with_unfolding_all rfl
  · with_unfolding_all rfl
  · with_unfolding_all rfl
  · with_unfolding_all rfl

/-- Witness for the universally quantified part of the C6 theorem. -/
theorem facultyRank_wider_set_witness :
    getFacultyDetailedAnalyticsDb c6Db "F1" none none none = .ok c6Out ∧
    c6Out.totalFaculty = (specFacultiesWithData (facultyRankFetch c6Db none)).length ∧
    c6Out.rank = specRank (facultyRankFetch c6Db none) "F1" := by
  have hok : getFacultyDetailedAnalyticsDb c6Db "F1" none none none = .ok c6Out := by
    with_unfolding_all rfl
  exact ⟨hok, (facultyRank_wider_set.1 c6Db "F1" none none none c6Out hok).1,
    (facultyRank_wider_set.1 c6Db "F1" none none none c6Out hok).2⟩

/-- A faculty outside the with-data set has rank `0`. -/
theorem specRank_eq_zero (records : List Snapshot) (fid : String)
    (h : fid ∉ specFacultiesWithData records) : specRank records fid = 0 := by
  unfold specRank
  have hnone : (specRankedFaculty records).findIdx? (fun p => p.1 == fid) = none := by
    rw [List.findIdx?_eq_none_iff]
    intro x hx
    rw [specRankedFaculty] at hx
    have hx' := (List.perm_insertionSort _ _).mem_iff.mp hx
    obtain ⟨fid', hf, rfl⟩ := List.mem_map.mp hx'
    simp only [beq_eq_false_iff_ne, ne_eq]
    exact fun he => h (he ▸ hf)
  rw [hnone]

/-- Concrete database for C10: the target F1 has one snapshot whose raw
score is the string `"0"` (parses to `0`, not counted); F2 has score 4. -/
def c10Db : List Snapshot :=
  [ { facultyId := "F1", responseValue := .str "0" },
    { facultyId := "F2", responseValue := .num (.finite 4) } ]

/-- The successful payload of the concrete C10 run. -/
def c10Out : FacultyDetailedAnalytics :=
  (getFacultyDetailedAnalyticsDb c10Db "F1" none none none).toOption.getD default

/-- Claim C10 (confirmed): a faculty whose snapshots all fail the positive
score test still gets a successful response (no not-found error) with
`overallRating = 0`, `totalResponses = 0`, `rank = 0` (it is absent from
the ranked list, and in general any faculty outside the with-data set of
the rank fetch gets rank 0), and it is not counted in `totalFaculty`,
which counts exactly the faculties having at least one positive-score
response. -/
theorem facultyDetail_zeroScores :
    ((facultyMainFetch c10Db "F1" none).length = 1 ∧
      getFacultyDetailedAnalyticsDb c10Db "F1" none none none = .ok c10Out ∧
      c10Out.overallRating = .finite 0 ∧
      c10Out.totalResponses = 0 ∧
      c10Out.rank = 0 ∧
      c10Out.totalFaculty = 1 ∧
      specFacultiesWithData (facultyRankFetch c10Db none) = ["F2"]) ∧
    (∀ (db : List Snapshot) (fid : String) (ay : Option String)
        (lookup : Option EntityInfo) (desig : Option String)
        (out : FacultyDetailedAnalytics),
      getFacultyDetailedAnalyticsDb db fid ay lookup desig = .ok out →
        fid ∉ specFacultiesWithData (facultyRankFetch db ay) →
        out.rank = 0 ∧
        out.totalFaculty = (specFacultiesWithData (facultyRankFetch db ay)).length) := by
  constructor
  · refine ⟨?_, ?_, ?_, ?_, ?_, ?_, ?_⟩ <;> with_unfolding_all rfl
  · intro db fid ay lookup desig out h hnot
    have hrt := facultyDetailDb_rank_totalFaculty db fid ay lookup desig out h
    exact ⟨hrt.2.trans (specRank_eq_zero _ _ hnot), hrt.1⟩

/-- Witness for the universally quantified part of the C10 theorem. -/
theorem facultyDetail_zeroScores_witness :
    getFacultyDetailedAnalyticsDb c10Db "F1" none none none = .ok c10Out ∧
    ("F1" ∉ specFacultiesWithData (facultyRankFetch c10Db none)) ∧
    c10Out.rank = 0 := by
  have hok : getFacultyDetailedAnalyticsDb c10Db "F1" none none none = .ok c10Out := by
    with_unfolding_all rfl
  have hnot : "F1" ∉ specFacultiesWithData (facultyRankFetch c10Db none) := by
    with_unfolding_all decide
  exact ⟨hok, hnot,
    (facultyDetail_zeroScores.2 c10Db "F1" none none none c10Out hok hnot).1⟩

/-! ### Claim C8: the mean convention and empty-group defaults -/

/-- Modelled from the spec's mean convention: `sum/count` rounded to two
decimals at the output boundary; `null` when the list is empty. -/
def optMean (l : List JsNum) : Option JsNum :=
  if 0 < l.length then some (jsMean l) else none

/-- Modelled from the spec's mean convention: `sum/count` rounded; `0`
when the list is empty. -/
def meanOrZero (l : List JsNum) : JsNum :=
  if 0 < l.length then jsMean l else .finite 0

/-- The counted scores of one subject and one stored lecture type. -/
def subjectTypeScores (snapshots : List Snapshot) (sid : String)
    (ty : LectureType) : List JsNum :=
  snapshots.filterMap
    (fun s => if (s.subjectId == sid) && (s.lectureType == ty) then aggScoreOf s else none)

/-- The counted scores of one derived lecture type (subject detail). -/
def deriveTypeScores (snapshots : List Snapshot) (ty : LectureType) : List JsNum :=
  snapshots.filterMap
    (fun s => if deriveLectureType s == ty then posScoreOf s else none)

/-- The counted scores of one subject and one derived lecture type
(division detail). -/
def divSubjectTypeScores (snapshots : List Snapshot) (sid : String)
    (ty : LectureType) : List JsNum :=
  snapshots.filterMap
    (fun s => if (s.subjectId == sid) && (deriveLectureType s == ty) then aggScoreOf s else none)

/-- The head of a non-empty key-filtered list carries the key. -/
theorem headI_key {κ α : Type} [BEq κ] [LawfulBEq κ] [Inhabited α]
    (keep : α → Bool) (key : α → κ) (l : List α) (k : κ)
    (hne : l.filter (fun s => keep s && (key s == k)) ≠ []) :
    key ((l.filter (fun s => keep s && (key s == k))).headI) = k := by
  cases hf : l.filter (fun s => keep s && (key s == k)) with
  | nil => exact absurd hf hne
  | cons x xs =>
    have hx : x ∈ l.filter (fun s => keep s && (key s == k)) := by
      rw [hf]
      exact List.mem_cons_self x xs
    have hc := (List.mem_filter.mp hx).2
    simp only [Bool.and_eq_true, beq_iff_eq] at hc
    exact hc.2

/-- The lecture scores of a subject group, as a whole-collection filter. -/
theorem aggSubject_lecScores (snapshots : List Snapshot) (k : String) :
    (snapshots.filter (fun s => aggKept s && (s.subjectId == k))).filterMap
        (fun s => if s.lectureType == LectureType.LECTURE then aggScoreOf s else none) =
      subjectTypeScores snapshots k LectureType.LECTURE := by
  rw [List.filterMap_filter, subjectTypeScores]
  apply List.filterMap_congr
  intro s _
  cases hk : aggKept s
  · have hn := aggScoreOf_eq_none_of_not_kept hk
    cases hky : s.subjectId == k <;> cases hty : s.lectureType == LectureType.LECTURE <;>
      simp [hky, hty, hn]
  · cases hky : s.subjectId == k <;> cases hty : s.lectureType == LectureType.LECTURE <;>
      simp [hky, hty]

/-- The lab scores of a subject group, as a whole-collection filter. -/
theorem aggSubject_labScores (snapshots : List Snapshot) (k : String) :
    (snapshots.filter (fun s => aggKept s && (s.subjectId == k))).filterMap
        (fun s => if s.lectureType == LectureType.LECTURE then none else aggScoreOf s) =
      subjectTypeScores snapshots k LectureType.LAB := by
  rw [List.filterMap_filter, subjectTypeScores]
  apply List.filterMap_congr
  intro s _
  cases hk : aggKept s
  · have hn := aggScoreOf_eq_none_of_not_kept hk
    cases hty : s.lectureType <;> cases hky : s.subjectId == k <;> simp [hky, hty, hn]
  · cases hty : s.lectureType <;> cases hky : s.subjectId == k <;> simp [hky, hty]

/-- The derived-lecture scores of a division-detail subject group. -/
theorem divSubject_lecScores (snapshots : List Snapshot) (k : String) :
    (snapshots.filter (fun s => aggKept s && (s.subjectId == k))).filterMap
        (fun s => if deriveLectureType s == LectureType.LECTURE then aggScoreOf s else none) =
      divSubjectTypeScores snapshots k LectureType.LECTURE := by
  rw [List.filterMap_filter, divSubjectTypeScores]
  apply List.filterMap_congr
  intro s _
  cases hk : aggKept s
  · have hn := aggScoreOf_eq_none_of_not_kept hk
    cases hky : s.subjectId == k <;>
      cases hty : deriveLectureType s == LectureType.LECTURE <;> simp [hky, hty, hn]
  · cases hky : s.subjectId == k <;>
      cases hty : deriveLectureType s == LectureType.LECTURE <;> simp [hky, hty]

/-- The derived-lab scores of a division-detail subject group. -/
theorem divSubject_labScores (snapshots : List Snapshot) (k : String) :
    (snapshots.filter (fun s => aggKept s && (s.subjectId == k))).filterMap
        (fun s => if deriveLectureType s == LectureType.LECTURE then none else aggScoreOf s) =
      divSubjectTypeScores snapshots k LectureType.LAB := by
  rw [List.filterMap_filter, divSubjectTypeScores]
  apply List.filterMap_congr
  intro s _
  cases hk : aggKept s
  · have hn := aggScoreOf_eq_none_of_not_kept hk
    cases hty : deriveLectureType s <;> cases hky : s.subjectId == k <;>
      simp [hky, hty, hn]
  · cases hty : deriveLectureType s <;> cases hky : s.subjectId == k <;>
      simp [hky, hty]

/-- The subject-detail lab score pass, as the spec-form list. -/
theorem derive_labScores (snapshots : List Snapshot) :
    snapshots.filterMap
        (fun s => if deriveLectureType s == LectureType.LECTURE then none else posScoreOf s) =
      deriveTypeScores snapshots LectureType.LAB := by
  rw [deriveTypeScores]
  apply List.filterMap_congr
  intro s _
  cases hty : deriveLectureType s <;> simp [hty]

/-- Claim C8 (confirmed): in the cited builders every rating is the mean
`sum/count` of its group's counted scores, rounded to two decimals at the
output boundary only; a lecture/lab sub-list with no scores yields `null`
(`optMean`), while a combined/overall rating defaults to `0`
(`meanOrZero`). Covered sites: `aggregateSubjectRatings` rows, the
`getSubjectDetailedAnalytics` top-level ratings, and the
`getDivisionDetailedAnalytics` subject breakdown rows. -/
theorem ratings_mean_and_defaults :
    (∀ (snapshots : List Snapshot), ∀ row ∈ aggregateSubjectRatings snapshots,
      ∃ sid, row.subjectId = sid ∧
        row.lectureRating = optMean (subjectTypeScores snapshots sid LectureType.LECTURE) ∧
        row.labRating = optMean (subjectTypeScores snapshots sid LectureType.LAB) ∧
        row.overallRating = meanOrZero (subjectTypeScores snapshots sid LectureType.LECTURE ++
          subjectTypeScores snapshots sid LectureType.LAB)) ∧
    (∀ (subjectId : String) (snapshots : List Snapshot) (lookup : Option EntityInfo)
        (out : SubjectDetailedAnalytics),
      getSubjectDetailedAnalytics subjectId snapshots lookup = .ok out →
        out.lectureRating = optMean (deriveTypeScores snapshots LectureType.LECTURE) ∧
        out.labRating = optMean (deriveTypeScores snapshots LectureType.LAB) ∧
        out.overallRating = meanOrZero (deriveTypeScores snapshots LectureType.LECTURE ++
          deriveTypeScores snapshots LectureType.LAB)) ∧
    (∀ (snapshots : List Snapshot), ∀ row ∈ divisionSubjectBreakdown snapshots,
      ∃ sid, row.subjectId = sid ∧
        row.lectureRating = optMean (divSubjectTypeScores snapshots sid LectureType.LECTURE) ∧
        row.labRating = optMean (divSubjectTypeScores snapshots sid LectureType.LAB) ∧
        row.totalRating = meanOrZero (divSubjectTypeScores snapshots sid LectureType.LECTURE ++
          divSubjectTypeScores snapshots sid LectureType.LAB)) := by
  refine ⟨?_, ?_, ?_⟩
  · intro snapshots row hrow
    simp only [aggregateSubjectRatings] at hrow
    have hmem := (List.perm_insertionSort _ _).mem_iff.mp hrow
    rw [jsGroupBy_eq, List.map_map] at hmem
    obtain ⟨k, hk, hrw⟩ := List.mem_map.mp hmem
    subst hrw
    have hne := filter_key_ne_nil aggKept (fun s => s.subjectId) hk
    refine ⟨k, headI_key aggKept (fun s => s.subjectId) snapshots k hne, ?_, ?_, ?_⟩
    · rw [optMean, ← aggSubject_lecScores snapshots k]
      rfl
    · rw [optMean, ← aggSubject_labScores snapshots k]
      rfl
    · rw [meanOrZero, ← aggSubject_lecScores snapshots k, ← aggSubject_labScores snapshots k]
      rfl
  · intro subjectId snapshots lookup out h
    rw [getSubjectDetailedAnalytics] at h
    split at h
    · exact absurd h (by simp)
    · rw [Except.ok.injEq] at h
      subst h
      refine ⟨?_, ?_, ?_⟩
      · rfl
      · rw [optMean, ← derive_labScores snapshots]
        try rfl
      · rw [meanOrZero, ← derive_labScores snapshots]
        try rfl
  · intro snapshots row hrow
    rw [divisionSubjectBreakdown, jsGroupBy_eq, List.map_map] at hrow
    obtain ⟨k, hk, hrw⟩ := List.mem_map.mp hrow
    subst hrw
    have hne := filter_key_ne_nil aggKept (fun s => s.subjectId) hk
    refine ⟨k, headI_key aggKept (fun s => s.subjectId) snapshots k hne, ?_, ?_, ?_⟩
    · rw [optMean, ← divSubject_lecScores snapshots k]
      rfl
    · rw [optMean, ← divSubject_labScores snapshots k]
      rfl
    · rw [meanOrZero, ← divSubject_lecScores snapshots k, ← divSubject_labScores snapshots k]
      rfl

instance : Inhabited SubjectRatingAggregated :=
  ⟨{ subjectId := "", subjectName := "", subjectAbbreviation := "", subjectCode := "",
     lectureRating := none, labRating := none, overallRating := .finite 0,
     lectureResponses := 0, labResponses := 0, totalResponses := 0,
     facultyCount := 0, divisionCount := 0 }⟩

instance : Inhabited DivisionSubjectRow :=
  ⟨{ subjectId := "", subjectName := "", subjectAbbreviation := "",
     lectureRating := none, labRating := none, totalRating := .finite 0,
     responses := 0 }⟩

instance : Inhabited SubjectDetailedAnalytics :=
  ⟨{ subject := ⟨"", "", "", ""⟩, overallRating := .finite 0, lectureRating := none,
     labRating := none, totalResponses := 0, lectureResponses := 0, labResponses := 0,
     facultyBreakdown := [], divisionBreakdown := [], questionBreakdown := [] }⟩

/-- One lab record with score 4, for the C8 witness. -/
def c8Snapshots : List Snapshot :=
  [ { subjectId := "S", subjectName := "Subject S", divisionId := "D",
      lectureType := .LAB, questionCategoryName := some "Lab Performance",
      responseValue := .num (.finite 4) } ]

/-- The single subject-rating row of the C8 witness input. -/
def c8Row : SubjectRatingAggregated := (aggregateSubjectRatings c8Snapshots).headI

/-- The subject-detail payload of the C8 witness input. -/
def c8SubjectOut : SubjectDetailedAnalytics :=
  (getSubjectDetailedAnalytics "S" c8Snapshots none).toOption.getD default

/-- The single division-detail subject row of the C8 witness input. -/
def c8DivRow : DivisionSubjectRow := (divisionSubjectBreakdown c8Snapshots).headI

/-- Witness for the C8 theorem at a one-record input (a lab score with no
lecture scores, exercising the `null` lecture default and the rounded
means). -/
theorem ratings_mean_and_defaults_witness :
    c8Row ∈ aggregateSubjectRatings c8Snapshots ∧
    c8Row.subjectId = "S" ∧
    c8Row.lectureRating = optMean (subjectTypeScores c8Snapshots "S" LectureType.LECTURE) ∧
    getSubjectDetailedAnalytics "S" c8Snapshots none = .ok c8SubjectOut ∧
    c8SubjectOut.labRating = optMean (deriveTypeScores c8Snapshots LectureType.LAB) ∧
    c8DivRow ∈ divisionSubjectBreakdown c8Snapshots ∧
    c8DivRow.labRating = optMean (divSubjectTypeScores c8Snapshots "S" LectureType.LAB) := by
  have hmem : c8Row ∈ aggregateSubjectRatings c8Snapshots := by
    with_unfolding_all decide
  have hS : c8Row.subjectId = "S" := by with_unfolding_all rfl
  obtain ⟨sid, hsid, hlec, hlab, hov⟩ := ratings_mean_and_defaults.1 c8Snapshots c8Row hmem
  have hsid1 : sid = "S" := by rw [← hsid, hS]
  subst hsid1
  have hok : getSubjectDetailedAnalytics "S" c8Snapshots none = .ok c8SubjectOut := by
    with_unfolding_all rfl
  obtain ⟨hd1, hd2, hd3⟩ := ratings_mean_and_defaults.2.1 "S" c8Snapshots none c8SubjectOut hok
  have hdmem : c8DivRow ∈ divisionSubjectBreakdown c8Snapshots := by
    with_unfolding_all decide
  have hdS : c8DivRow.subjectId = "S" := by with_unfolding_all rfl
  obtain ⟨sid2, hsid2, hdl, hdlab, hdt⟩ :=
    ratings_mean_and_defaults.2.2 c8Snapshots c8DivRow hdmem
  have hsid2' : sid2 = "S" := by rw [← hsid2, hdS]
  subst hsid2'
  exact ⟨hmem, hS, hlec, hok, hd2, hdmem, hdlab⟩

end Reflectify
